import Mathlib

/-!
# rest-wiki-site: the HMAC session-signature scheme of `auth.go`

A shallow embedding of `src/rest-wiki-site/auth.go`, `util.go` and the request
signing helper of `testutils.go`.

Conventions of the embedding.

* A Go `string` is a Lean `String`; `len(s) == 0` is `s.length = 0`.
* A Go `[]byte` is a `List Nat` (each entry a byte value).
* A Go `int64` is an `Int`; an `int64` addition is wrapped by `wrapInt64`.
* A Go `error` is its message, a `String`; `nil` is `none`.
* `time.Now().Unix()` is an explicit argument `now`.
* The Go standard library routines the code calls, and whose internals the
  repository does not contain, are gathered in the structure `Lib`.
-/

namespace RestWiki

/-! ## Machine integers and `strconv` -/

/-- Smallest `int64`. -/
def minInt64 : Int := -9223372036854775808

/-- Largest `int64`. -/
def maxInt64 : Int := 9223372036854775807

/-- Whether an integer is an `int64` value. -/
def isInt64 (x : Int) : Prop := minInt64 ≤ x ∧ x ≤ maxInt64

instance (x : Int) : Decidable (isInt64 x) := by
  unfold isInt64; infer_instance

/-- Two's complement wrap-around of a mathematical integer to `int64`. -/
def wrapInt64 (x : Int) : Int := (x + 9223372036854775808) % 18446744073709551616 - 9223372036854775808

/-- The decimal digit character of a value below ten. -/
def digitChar (d : Nat) : Char := Char.ofNat (48 + d)

/-- Decimal digits of `n`, least significant first; `fuel` bounds the number of digits. -/
def digitsRev : Nat → Nat → List Nat
  | 0, _ => []
  | fuel + 1, n => if n < 10 then [n] else (n % 10) :: digitsRev fuel (n / 10)

/-- Decimal rendering of a natural number, most significant digit first. -/
def formatNat (n : Nat) : List Char := ((digitsRev (n + 1) n).reverse).map digitChar

/-- Model of `strconv.FormatInt(i, 10)`. -/
def FormatInt (i : Int) : String :=
  if i < 0 then String.mk ('-' :: formatNat i.natAbs) else String.mk (formatNat i.natAbs)

/-- Value of a decimal digit character, `none` for any other character. -/
def digitVal (c : Char) : Option Nat :=
  if 48 ≤ c.toNat ∧ c.toNat ≤ 57 then some (c.toNat - 48) else none

/-- Value of a string of decimal digits read left to right from the accumulator `acc`;
`none` when a character is not a decimal digit. -/
def parseDigits : List Char → Nat → Option Nat
  | [], acc => some acc
  | c :: cs, acc =>
    match digitVal c with
    | some d => parseDigits cs (acc * 10 + d)
    | none => none

/-- Model of `strconv.ParseUint(s, 10, 64)` without the upper bound, which `ParseInt`
applies itself: the empty string and any non-digit are syntax errors. -/
def parseUnsigned (cs : List Char) : Option Nat :=
  match cs with
  | [] => none
  | _ => parseDigits cs 0

/-- Model of `strconv.ParseInt(s, 10, 64)`: an optional sign, then decimal digits, and
the value must be an `int64`; `none` stands for either `ErrSyntax` or `ErrRange`. -/
def ParseInt (s : String) : Option Int :=
  match s.data with
  | [] => none
  | '+' :: cs =>
    match parseUnsigned cs with
    | some n => if (n : Int) ≤ maxInt64 then some (n : Int) else none
    | none => none
  | '-' :: cs =>
    match parseUnsigned cs with
    | some n => if -(n : Int) ≥ minInt64 then some (-(n : Int)) else none
    | none => none
  | cs =>
    match parseUnsigned cs with
    | some n => if (n : Int) ≤ maxInt64 then some (n : Int) else none
    | none => none

/-! ## `encoding/base64` and `encoding/hex` -/

/-- The alphabet of `base64.StdEncoding`. -/
def base64Alphabet : List Char :=
  "ABCDEFGHIJKLMNOPQRSTUVWXYZabcdefghijklmnopqrstuvwxyz0123456789+/".data

/-- The base64 character of a six-bit value. -/
def base64Char (v : Nat) : Char := base64Alphabet.getD (v % 64) 'A'

/-- Model of `base64.StdEncoding.EncodeToString`, on the list of bytes: three bytes give
four characters, and a last group of one or two bytes is padded with `=`. -/
def base64Encode : List Nat → List Char
  | [] => []
  | [a] => [base64Char (a / 4), base64Char ((a % 4) * 16), '=', '=']
  | [a, b] =>
    [base64Char (a / 4), base64Char ((a % 4) * 16 + b / 16), base64Char ((b % 16) * 4), '=']
  | a :: b :: c :: rest =>
    base64Char (a / 4) :: base64Char ((a % 4) * 16 + b / 16)
      :: base64Char ((b % 16) * 4 + c / 64) :: base64Char (c % 64) :: base64Encode rest

/-- The lowercase hexadecimal digit of a value below sixteen. -/
def hexChar (v : Nat) : Char := "0123456789abcdef".data.getD (v % 16) '0'

/-- Model of `hex.EncodeToString`: two lowercase hexadecimal digits per byte. -/
def hexEncode : List Nat → List Char
  | [] => []
  | b :: bs => hexChar (b / 16) :: hexChar (b % 16) :: hexEncode bs

/-! ## The standard library routines taken as given -/

/-- A JSON document, as `encoding/json` sees it: a number keeps its literal. -/
inductive Json where
  | null : Json
  | bool (b : Bool) : Json
  | num (literal : String) : Json
  | str (s : String) : Json
  | arr (items : List Json) : Json
  | obj (fields : List (String × Json)) : Json

/-- The routines of the Go standard library that `auth.go` calls. The digest of
`crypto/hmac` over `crypto/sha256` is 32 bytes long (`sha256.Size`). -/
structure Lib where
  /-- Digest of `hmac.New(sha256.New, key)` after `Write(message)`: `hmacSha256 key message`. -/
  hmacSha256 : String → String → List Nat
  /-- The digest has `sha256.Size` bytes. -/
  hmacSha256_size : ∀ key message, (hmacSha256 key message).length = 32
  /-- Digest of `md5.New()` after `Write(body)`. -/
  md5Sum : List Nat → List Nat
  /-- The bytes `json.Marshal` writes for a document. -/
  jsonEncode : Json → List Nat
  /-- The document `json.Unmarshal` reads from the bytes, or its syntax error. -/
  jsonDecode : List Nat → Except String Json
  /-- The message of the `UnmarshalTypeError` of `json.Unmarshal`. -/
  jsonTypeError : String
  /-- Whether an object key selects the struct field of the given JSON name (exact or
  case-folded match). -/
  keyFold : String → String → Bool
  /-- The credentials `parseBasicAuth` reads from an `Authorization` header value. -/
  parseBasicAuth : String → Option (String × String)

/-! ## `auth.go`: the assertion, signing and issuance -/

/-- The mode of `LoadRequest`. -/
inductive AuthorizationMode where
  | Authorization : AuthorizationMode
  | Signature : AuthorizationMode
  deriving DecidableEq, Repr

/-- The session assertion of `auth.go`. -/
structure Authentication where
  Username : String := ""
  Password : String := ""
  Timestamp : Int := 0
  Signature : String := ""
  Authorization : String := ""
  deriving DecidableEq, Repr

/-- Model of `computeHmac256(message, secret)`: standard base64 of the HMAC-SHA256 digest of
`message` under the key `secret`. -/
def computeHmac256 (L : Lib) (message secret : String) : String :=
  String.mk (base64Encode (L.hmacSha256 secret message))

/-- Model of `(*Authentication).CreateSignature`. -/
def Authentication.CreateSignature (L : Lib) (a : Authentication) (secret : String) :
    Authentication :=
  { a with Signature := computeHmac256 L (a.Username ++ "\n" ++ FormatInt a.Timestamp) secret }

/-- Model of `(*Authentication).Sign`: the signed message, or the error. -/
def Authentication.Sign (L : Lib) (a : Authentication) (message : String) : Except String String :=
  if a.Signature.length = 0 then
    Except.error "No signature is available"
  else
    Except.ok (computeHmac256 L message a.Signature)

/-- Model of `(*Authentication).Authenticate`: the assertion after the call and the returned
error list (`none` for the `nil` slice). `now` is `time.Now().Unix()`. -/
def Authentication.Authenticate (L : Lib) (a : Authentication) (fn : String → String → Bool)
    (secret : String) (sessiontimeout : Int) (now : Int) :
    Authentication × Option (List String) :=
  let auth_errors : List String := []
  let auth_errors :=
    if a.Username.length = 0 then auth_errors ++ ["No username provided"] else auth_errors
  let auth_errors :=
    if a.Password.length = 0 then auth_errors ++ ["No password provided"] else auth_errors
  if auth_errors.length > 0 then
    (a, some auth_errors)
  else if !fn a.Username a.Password then
    (a, some (auth_errors ++ ["Invalid username or password"]))
  else
    let a := { a with Timestamp := wrapInt64 (now + sessiontimeout) }
    (a.CreateSignature L secret, none)

/-! ## `net/http`: headers, requests and response writers -/

/-- Model of `http.Header`, a map from canonical header names to their values. Every name the
code uses is written in canonical form, so names are compared as they stand. -/
abbrev Header := List (String × List String)

/-- Model of `Header.Get`: the first value of the header, `""` when there is none. -/
def Header.Get (h : Header) (key : String) : String :=
  match h.lookup key with
  | some (v :: _) => v
  | _ => ""

/-- Model of `Header.Set`: the header now has the single value `value`. -/
def Header.Set (h : Header) (key value : String) : Header :=
  (key, [value]) :: h.filter (fun e => e.1 != key)

/-- Whether the request or response carries the header at all, with whatever value. -/
def Header.Has (h : Header) (key : String) : Bool :=
  match h.lookup key with
  | some (_ :: _) => true
  | _ => false

/-- Model of `r.Body`, an `io.ReadCloser`: the bytes still to be read, and the error other
than `io.EOF` that reading hits after them, if any. -/
structure BodyReader where
  data : List Nat
  err : Option String := none
  deriving DecidableEq, Repr

/-- Model of `ioutil.ReadAll`: the bytes read, the error, and the reader afterwards, which
has nothing left to read. -/
def ReadAll (b : BodyReader) : List Nat × Option String × BodyReader :=
  (b.data, b.err, { b with data := [] })

/-- Model of `ioutil.NopCloser(bytes.NewReader(body))`. -/
def NewReader (body : List Nat) : BodyReader := { data := body, err := none }

/-- Model of the fields of `http.Request` that the code reads; `Path` is `r.URL.Path`. -/
structure Request where
  Method : String := "GET"
  Path : String := "/"
  Header : Header := []
  Body : Option BodyReader := none
  ContentLength : Int := 0
  deriving DecidableEq, Repr

/-- Model of `http.ResponseWriter` as `httptest.ResponseRecorder` implements it: the header
map, the status code once written, and the body bytes written so far. -/
structure ResponseWriter where
  header : Header := []
  status : Option Nat := none
  body : List Nat := []
  deriving DecidableEq, Repr

/-- Model of `w.Header().Set(key, value)`. -/
def ResponseWriter.SetHeader (w : ResponseWriter) (key value : String) : ResponseWriter :=
  { w with header := w.header.Set key value }

/-- Model of `w.WriteHeader(code)`: only the first call sets the status. -/
def ResponseWriter.WriteHeader (w : ResponseWriter) (code : Nat) : ResponseWriter :=
  match w.status with
  | some _ => w
  | none => { w with status := some code }

/-- Model of `w.Write(b)`: a write before any `WriteHeader` sets status 200. -/
def ResponseWriter.Write (w : ResponseWriter) (b : List Nat) : ResponseWriter :=
  { (w.WriteHeader 200) with body := w.body ++ b }

/-- Model of `http.HandlerFunc`: the response writer and the request after the call. -/
abbrev HandlerFunc := ResponseWriter → Request → ResponseWriter × Request

/-! ## `auth.go`: loading a request -/

/-- Model of `validAuthorization.Match`, the regular expression `^HMAC `. -/
def validAuthorization (s : String) : Bool := "HMAC ".data.isPrefixOf s.data

/-- Model of `json.Unmarshal` storing the value of one object key into the assertion, by the
`json` tags of the struct: the assertion after it and the type error, if any. The field
`Authorization` has the tag `-` and is never selected. -/
def Authentication.setField (L : Lib) (a : Authentication) (key : String) (v : Json) :
    Authentication × Option String :=
  if L.keyFold "username" key then
    match v with
    | Json.null => (a, none)
    | Json.str s => ({ a with Username := s }, none)
    | _ => (a, some L.jsonTypeError)
  else if L.keyFold "password" key then
    match v with
    | Json.null => (a, none)
    | Json.str s => ({ a with Password := s }, none)
    | _ => (a, some L.jsonTypeError)
  else if L.keyFold "timestamp" key then
    match v with
    | Json.null => (a, none)
    | Json.num literal =>
      match ParseInt literal with
      | some t => ({ a with Timestamp := t }, none)
      | none => (a, some L.jsonTypeError)
    | _ => (a, some L.jsonTypeError)
  else if L.keyFold "signature" key then
    match v with
    | Json.null => (a, none)
    | Json.str s => ({ a with Signature := s }, none)
    | _ => (a, some L.jsonTypeError)
  else
    (a, none)

/-- Model of `json.Unmarshal` over the keys of an object, in order: every key is stored, and
the first type error is the one kept. -/
def Authentication.setFields (L : Lib) :
    Authentication → List (String × Json) → Option String → Authentication × Option String
  | a, [], saved => (a, saved)
  | a, (key, v) :: rest, saved =>
    let res := a.setField L key v
    Authentication.setFields L res.1 rest (match saved with | some e => some e | none => res.2)

/-- Model of `json.Unmarshal(body, a)` for `a *Authentication`: a syntax error leaves the
assertion alone, `null` is a no-op, an object fills the fields, anything else is a type
error. -/
def Authentication.Unmarshal (L : Lib) (a : Authentication) (body : List Nat) :
    Authentication × Option String :=
  match L.jsonDecode body with
  | Except.error e => (a, some e)
  | Except.ok Json.null => (a, none)
  | Except.ok (Json.obj fields) => Authentication.setFields L a fields none
  | Except.ok _ => (a, some L.jsonTypeError)

/-- Model of `(*Authentication).LoadRequest`: the assertion and the request after the call,
and the returned error. In `Authorization` mode a request with a positive `ContentLength` and
a nil `Body`, which neither a server nor `http.NewRequest` produces, is answered with the
error `"nil Body"` where Go would dereference nil. -/
def Authentication.LoadRequest (L : Lib) (a : Authentication) (r : Request)
    (mode : AuthorizationMode) : Authentication × Request × Option String :=
  match mode with
  | AuthorizationMode.Authorization =>
    match (if r.Header.Get "Authorization" = "" then none
           else L.parseBasicAuth (r.Header.Get "Authorization")) with
    | some (basicauth_username, basicauth_password) =>
      ({ a with Username := basicauth_username, Password := basicauth_password }, r, none)
    | none =>
      if r.ContentLength > 0 then
        match r.Body with
        | none => (a, r, some "nil Body")
        | some b =>
          match ReadAll b with
          | (_, some err, b') => (a, { r with Body := some b' }, some err)
          | (body, none, _) =>
            let r := { r with Body := some (NewReader body) }
            match a.Unmarshal L body with
            | (a, some err) => (a, r, some err)
            | (a, none) => (a, r, none)
      else
        (a, r, none)
  | AuthorizationMode.Signature =>
    let timestamp := r.Header.Get "Timestamp"
    match (if timestamp.length ≠ 0 then
             match ParseInt timestamp with
             | none => Except.error "Invalid Timestamp header"
             | some t => Except.ok { a with Timestamp := t }
           else Except.ok a) with
    | Except.error e => (a, r, some e)
    | Except.ok a =>
      let username := r.Header.Get "Username"
      let a := if username.length ≠ 0 then { a with Username := username } else a
      let authHeader := r.Header.Get "Authorization"
      let a :=
        if authHeader.length ≠ 0 ∧ validAuthorization authHeader then
          { a with Authorization := String.mk (authHeader.data.drop 5) }
        else a
      (a, r, none)

/-! ## `auth.go`: checking a signed request -/

/-- Model of the body hash of `CheckAuthorization` and `SignRequest`: lowercase hexadecimal
of the MD5 digest. -/
def md5Hex (L : Lib) (body : List Nat) : String := String.mk (hexEncode (L.md5Sum body))

/-- Model of the block of `CheckAuthorization` that computes `bodyhash` (auth.go, lines
128 to 138): the hash and the request after the read, whose body is readable again; or the
read error and the request with its body drained. -/
def bodyhash (L : Lib) (r : Request) : Except (String × Request) (String × Request) :=
  if r.ContentLength ≠ 0 then
    match r.Body with
    | some b =>
      match ReadAll b with
      | (_, some err, b') => Except.error (err, { r with Body := some b' })
      | (body, none, _) => Except.ok (md5Hex L body, { r with Body := some (NewReader body) })
    | none => Except.ok ("", r)
  else Except.ok ("", r)

/-- Model of `(*Authentication).CheckAuthorization`: the assertion and the request after the
call, and the returned error. `now` is `time.Now().Unix()`. -/
def Authentication.CheckAuthorization (L : Lib) (a : Authentication) (r : Request)
    (secret : String) (sessiontimeout : Int) (now : Int) :
    Authentication × Request × Option String :=
  if a.Authorization.length = 0 then
    (a, r, some "No Authorization header provided")
  else if a.Username.length = 0 then
    (a, r, some "No Username header provided")
  else if a.Timestamp = 0 then
    (a, r, some "No Timestamp header provided")
  else if wrapInt64 (a.Timestamp + sessiontimeout) < now then
    (a, r, some "Signature has expired")
  else
    let a := a.CreateSignature L secret
    match bodyhash L r with
    | Except.error (err, r) => (a, r, some err)
    | Except.ok (bodyhash, r) =>
      let message := r.Method ++ "\n" ++ r.Path ++ "\n" ++ bodyhash
      match a.Sign L message with
      | Except.error err => (a, r, some err)
      | Except.ok signedMessage =>
        if signedMessage ≠ a.Authorization then
          (a, r, some "Authorization does not match request")
        else
          (a, r, none)

/-! ## `auth.go` and `util.go`: writing the response -/

/-- Model of `json.Marshal(a)` for an `Authentication`, by the `json` tags of the struct:
`password` and `signature` are `omitempty`, and `Authorization` is never written. -/
def Authentication.toJson (a : Authentication) : Json :=
  Json.obj
    ([("username", Json.str a.Username)]
      ++ (if a.Password.length = 0 then [] else [("password", Json.str a.Password)])
      ++ [("timestamp", Json.num (FormatInt a.Timestamp))]
      ++ (if a.Signature.length = 0 then [] else [("signature", Json.str a.Signature)]))

/-- Model of `(*Authentication).WriteJSON`; `json.Marshal` does not fail on this struct. -/
def Authentication.WriteJSON (L : Lib) (a : Authentication) (w : ResponseWriter) :
    ResponseWriter × Option String :=
  let jsonResponse := L.jsonEncode a.toJson
  let w := w.SetHeader "Content-Type" "text/json; charset=utf-8"
  (w.Write jsonResponse, none)

/-- Model of `(*Authentication).WriteHeaders`. -/
def Authentication.WriteHeaders (a : Authentication) (w : ResponseWriter) :
    ResponseWriter × Option String :=
  let w := w.SetHeader "Username" a.Username
  let w := w.SetHeader "Timestamp" (FormatInt a.Timestamp)
  let w := w.SetHeader "Signature" a.Signature
  (w, none)

/-- Model of `json.Marshal(er)` for an `ErrorResponse`. -/
def ErrorResponse.toJson (errors : List String) : Json :=
  Json.obj [("errors", Json.arr (errors.map Json.str))]

/-- Model of `ReturnError(w, r, status, e...)`. -/
def ReturnError (L : Lib) (w : ResponseWriter) (status : Nat) (e : List String) :
    ResponseWriter :=
  let w := w.SetHeader "Content-Type" "text/json; charset=utf-8"
  let w := w.WriteHeader status
  w.Write (L.jsonEncode (ErrorResponse.toJson e))

/-- The value of `Access-Control-Allow-Headers` both handlers send. -/
def allowHeaders : String :=
  "Accept, Content-Type, Content-Length, Accept-Encoding, X-CSRF-Token, Timestamp, Username, Authorization"

/-- Model of the handler `CreateSessionSigningHandler` returns, run at the instant `now`. -/
def CreateSessionSigningHandler (L : Lib) (secret : String) (sessiontimeout : Int)
    (allowOrigins : String) (fn : String → String → Bool) (now : Int) : HandlerFunc :=
  fun w r =>
    let w := w.SetHeader "Access-Control-Allow-Methods" "GET, OPTIONS, POST"
    let w := w.SetHeader "Access-Control-Allow-Origin" allowOrigins
    let w := w.SetHeader "Access-Control-Allow-Headers" allowHeaders
    if r.Method = "OPTIONS" then
      (w, r)
    else
      let a : Authentication := {}
      match a.LoadRequest L r AuthorizationMode.Authorization with
      | (_, r, some err) => (ReturnError L w 500 [err], r)
      | (a, r, none) =>
        match a.Authenticate L fn secret sessiontimeout now with
        | (_, some auth_errors) => (ReturnError L w 403 auth_errors, r)
        | (a, none) =>
          let a := { a with Password := "" }
          match a.WriteJSON L w with
          | (w, some err) => (ReturnError L w 500 [err], r)
          | (w, none) => (w, r)

/-- Model of the handler `CreateAuthorizedRequestHandler` returns, run at the instant `now`. -/
def CreateAuthorizedRequestHandler (L : Lib) (secret : String) (sessiontimeout : Int)
    (allowOrigins : String) (methods : String) (fn : HandlerFunc) (now : Int) : HandlerFunc :=
  fun w r =>
    let w := w.SetHeader "Access-Control-Allow-Methods" methods
    let w := w.SetHeader "Access-Control-Allow-Origin" allowOrigins
    let w := w.SetHeader "Access-Control-Allow-Headers" allowHeaders
    if r.Method = "OPTIONS" then
      (w, r)
    else
      let a : Authentication := {}
      match a.LoadRequest L r AuthorizationMode.Signature with
      | (_, r, some err) => (ReturnError L w 403 [err], r)
      | (a, r, none) =>
        match a.CheckAuthorization L r secret sessiontimeout now with
        | (_, r, some err) => (ReturnError L w 403 [err], r)
        | (a, r, none) =>
          match a.WriteHeaders w with
          | (w, some err) => (ReturnError L w 403 [err], r)
          | (w, none) => fn w r

/-- The response writer after the three CORS headers both handlers set first. -/
def withCORS (w : ResponseWriter) (methods allowOrigins : String) : ResponseWriter :=
  ((w.SetHeader "Access-Control-Allow-Methods" methods).SetHeader
    "Access-Control-Allow-Origin" allowOrigins).SetHeader
    "Access-Control-Allow-Headers" allowHeaders

/-! ## `testutils.go`: the client side -/

/-- Model of `SignRequest(r, method, url, body, a)`. -/
def SignRequest (L : Lib) (r : Request) (method url : String) (body : List Nat)
    (a : Authentication) : Request :=
  let bodyhash := if body.length ≠ 0 then md5Hex L body else ""
  let message := method ++ "\n" ++ url ++ "\n" ++ bodyhash
  let signedmessage := String.mk (base64Encode (L.hmacSha256 a.Signature message))
  let h := r.Header.Set "Username" a.Username
  let h := h.Set "Timestamp" (FormatInt a.Timestamp)
  let h := h.Set "Authorization" ("HMAC " ++ signedmessage)
  { r with Header := h }

/-- Model of `httptest.NewRecorder()`. -/
def NewRecorder : ResponseWriter := {}

/-! ## A small instance of the library, for evaluating the code on concrete inputs -/

/-- A stand-in keyed digest of 32 bytes: it depends on the lengths of key and message and
on the first character of the key. -/
def demoDigest (key message : String) : List Nat :=
  [key.length % 256, message.length % 256, (key.data.headD 'A').toNat % 256]
    ++ List.replicate 29 7

/-- Reads a JSON string without escapes, from after its opening quote: the string and the
rest of the input. -/
def demoString : List Char → List Char → Option (String × List Char)
  | [], _ => none
  | c :: rest, acc =>
    if c = '"' then some (String.mk acc.reverse, rest) else demoString rest (c :: acc)

/-- Reads a JSON string or an integer literal: the value and the rest of the input. -/
def demoValue (cs : List Char) : Option (Json × List Char) :=
  match cs with
  | '"' :: rest =>
    match demoString rest [] with
    | some (s, rest) => some (Json.str s, rest)
    | none => none
  | _ =>
    if cs.takeWhile (fun c => c.isDigit || c == '-') = [] then none
    else some (Json.num (String.mk (cs.takeWhile (fun c => c.isDigit || c == '-'))),
               cs.dropWhile (fun c => c.isDigit || c == '-'))

/-- Reads the members of a JSON object written without blanks, from after its opening brace;
`fuel` bounds the number of members. -/
def demoFields : Nat → List Char → Option (List (String × Json))
  | 0, _ => none
  | fuel + 1, cs =>
    match cs with
    | '"' :: rest =>
      match demoString rest [] with
      | some (key, ':' :: rest) =>
        match demoValue rest with
        | some (v, ['\x7d']) => some [(key, v)]
        | some (v, ',' :: rest) =>
          match demoFields fuel rest with
          | some fields => some ((key, v) :: fields)
          | none => none
        | _ => none
      | _ => none
    | _ => none

/-- A stand-in for the decoder of `encoding/json`, for `null` and for objects written without
blanks whose values are strings without escapes or integer literals. -/
def demoJsonDecode (body : List Nat) : Except String Json :=
  match body.map Char.ofNat with
  | ['n', 'u', 'l', 'l'] => Except.ok Json.null
  | ['\x7b', '\x7d'] => Except.ok (Json.obj [])
  | '\x7b' :: rest =>
    match demoFields rest.length rest with
    | some fields => Except.ok (Json.obj fields)
    | none => Except.error "invalid character"
  | _ => Except.error "invalid character"

/-- A stand-in for the encoder of `encoding/json`: of an object it keeps the lengths of the
keys only. -/
def demoJsonEncode (j : Json) : List Nat :=
  match j with
  | Json.obj fields => fields.map (fun f => f.1.length)
  | _ => []

/-- The bytes of a text of ASCII characters. -/
def asciiBytes (s : String) : List Nat := s.data.map Char.toNat

/-- A stand-in for the standard library: `parseBasicAuth` reads `user:pass` in clear after
`Basic `. -/
def demoLib : Lib where
  hmacSha256 := demoDigest
  hmacSha256_size := by intro key message; simp [demoDigest]
  md5Sum := fun body => [body.length % 256] ++ List.replicate 15 0
  jsonEncode := demoJsonEncode
  jsonDecode := demoJsonDecode
  jsonTypeError := "json: cannot unmarshal"
  keyFold := fun name key => name == key
  parseBasicAuth := fun s =>
    if "Basic ".data.isPrefixOf s.data then
      let rest := s.data.drop 6
      some (String.mk (rest.takeWhile (fun c => c != ':')),
            String.mk ((rest.dropWhile (fun c => c != ':')).drop 1))
    else none

/-- Model of the predicate `CreateRouter` hands to `CreateSessionSigningHandler` (app.go,
lines 19 to 21). -/
def verifyAdmin (adminuserid adminpassword : String) (userid password : String) : Bool :=
  userid == adminuserid && password == adminpassword

/-- A `GET /page` without a body, as the authorized-request handler receives it. -/
def demoGetPage : Request :=
  { Method := "GET", Path := "/page", Body := some (NewReader []), ContentLength := 0 }

/-- A `POST /sessionsignature` with the given body, as `MakeSignatureRequest` builds it. -/
def demoPost (body : List Nat) : Request :=
  { Method := "POST", Path := "/sessionsignature", Body := some (NewReader body),
    ContentLength := body.length }

/-- A `GET /sessionsignature` with basic-auth credentials, in the clear form `demoLib`
reads. -/
def demoBasicAuth (credentials : String) : Request :=
  { Method := "GET", Path := "/sessionsignature",
    Header := [("Authorization", ["Basic " ++ credentials])] }

/-- The JSON body with the username `test` and the password `wrong`. -/
def demoWrongBody : List Nat :=
  asciiBytes "\x7b\"username\":\"test\",\"password\":\"wrong\"\x7d"

/-- A JSON credential body that also carries a timestamp and a signature of the client. -/
def demoForgedBody : List Nat :=
  asciiBytes
    "\x7b\"username\":\"test\",\"password\":\"test\",\"timestamp\":5,\"signature\":\"forged\"\x7d"

/-- A JSON credential body with the same username and password whose `signature` is a number,
not a string. -/
def demoMistypedBody : List Nat :=
  asciiBytes
    "\x7b\"username\":\"test\",\"password\":\"test\",\"timestamp\":7,\"signature\":8\x7d"

/-- The JSON credential body with the same username and password and nothing else. -/
def demoPlainBody : List Nat :=
  asciiBytes "\x7b\"username\":\"test\",\"password\":\"test\"\x7d"

/-! ## Basic facts about the embedding -/

theorem string_length_eq_zero (s : String) : s.length = 0 ↔ s = "" := by
  constructor
  · intro h
    cases s with
    | mk cs =>
      cases cs with
      | nil => rfl
      | cons c cs => simp [String.length] at h
  · intro h; subst h; rfl

theorem wrapInt64_eq_self (x : Int) (h : isInt64 x) : wrapInt64 x = x := by
  unfold isInt64 minInt64 maxInt64 at h
  unfold wrapInt64
  omega

theorem base64Encode_ne_nil (l : List Nat) (h : l ≠ []) : base64Encode l ≠ [] := by
  match l, h with
  | [_], _ => simp [base64Encode]
  | [_, _], _ => simp [base64Encode]
  | _ :: _ :: _ :: _, _ => simp [base64Encode]

theorem computeHmac256_ne_empty (L : Lib) (message secret : String) :
    computeHmac256 L message secret ≠ "" := by
  unfold computeHmac256
  intro h
  have h1 : base64Encode (L.hmacSha256 secret message) = [] := by
    have := congrArg String.data h
    simpa using this
  have h2 : L.hmacSha256 secret message ≠ [] := by
    intro h3
    have := L.hmacSha256_size secret message
    rw [h3] at this
    simp at this
  exact base64Encode_ne_nil _ h2 h1

/-! ## Issuance: `Authenticate` -/

theorem Authenticate_accepts (L : Lib) (a : Authentication) (fn : String → String → Bool)
    (secret : String) (sessiontimeout now : Int)
    (hu : a.Username ≠ "") (hp : a.Password ≠ "") (hfn : fn a.Username a.Password = true) :
    a.Authenticate L fn secret sessiontimeout now =
      (({ a with Timestamp := wrapInt64 (now + sessiontimeout) } :
          Authentication).CreateSignature L secret, none) := by
  have hu' : ¬ a.Username.length = 0 := fun h => hu ((string_length_eq_zero _).1 h)
  have hp' : ¬ a.Password.length = 0 := fun h => hp ((string_length_eq_zero _).1 h)
  simp [Authentication.Authenticate, hu', hp', hfn]

theorem Authenticate_rejects (L : Lib) (a : Authentication) (fn : String → String → Bool)
    (secret : String) (sessiontimeout now : Int)
    (hu : a.Username ≠ "") (hp : a.Password ≠ "") (hfn : fn a.Username a.Password = false) :
    a.Authenticate L fn secret sessiontimeout now = (a, some ["Invalid username or password"]) := by
  have hu' : ¬ a.Username.length = 0 := fun h => hu ((string_length_eq_zero _).1 h)
  have hp' : ¬ a.Password.length = 0 := fun h => hp ((string_length_eq_zero _).1 h)
  simp [Authentication.Authenticate, hu', hp', hfn]

/-- C1, as the claim states it, fails: with a session lifetime of zero a successful
`Authenticate` leaves `Timestamp` equal to `now`, not strictly greater; and a pair with an
empty username that the predicate accepts is answered with an error. -/
theorem authenticate_timestamp_not_always_later :
    (Authentication.Authenticate demoLib { Username := "u", Password := "p" }
        (fun _ _ => true) "s" 0 100).2 = none
    ∧ ¬ (100 < (Authentication.Authenticate demoLib { Username := "u", Password := "p" }
        (fun _ _ => true) "s" 0 100).1.Timestamp)
    ∧ (Authentication.Authenticate demoLib { Username := "", Password := "p" }
        (fun _ _ => true) "s" 1800 100).2 = some ["No username provided"] := by
  decide

/-- C1, amended: for every non-empty username and password that the verification predicate
accepts, every secret, session lifetime and `now`, `Authenticate` returns no errors, sets
`Timestamp` to `now + sessiontimeout` wrapped to `int64`, and leaves `Signature` equal to
`computeHmac256(username + "\n" + decimal(Timestamp), secret)`; when the lifetime is positive
and `now + sessiontimeout` is an `int64`, the timestamp is `now + sessiontimeout` and strictly
greater than `now`. -/
theorem authenticate_issues_signed_timestamp (L : Lib) (a : Authentication)
    (fn : String → String → Bool) (secret : String) (sessiontimeout now : Int)
    (hu : a.Username ≠ "") (hp : a.Password ≠ "") (hfn : fn a.Username a.Password = true) :
    (a.Authenticate L fn secret sessiontimeout now).2 = none
    ∧ (a.Authenticate L fn secret sessiontimeout now).1.Timestamp
        = wrapInt64 (now + sessiontimeout)
    ∧ (0 < sessiontimeout → isInt64 (now + sessiontimeout) →
        (a.Authenticate L fn secret sessiontimeout now).1.Timestamp = now + sessiontimeout
        ∧ now < (a.Authenticate L fn secret sessiontimeout now).1.Timestamp)
    ∧ (a.Authenticate L fn secret sessiontimeout now).1.Signature =
        computeHmac256 L (a.Username ++ "\n"
          ++ FormatInt (a.Authenticate L fn secret sessiontimeout now).1.Timestamp) secret := by
  rw [Authenticate_accepts L a fn secret sessiontimeout now hu hp hfn]
  refine ⟨rfl, rfl, ?_, rfl⟩
  intro hpos hr
  simp only [Authentication.CreateSignature]
  rw [wrapInt64_eq_self _ hr]
  exact ⟨rfl, by omega⟩

/-- The amended C1 at the credentials of the tests, half an hour of lifetime. -/
theorem authenticate_issues_signed_timestamp_witness :
    (Authentication.Authenticate demoLib { Username := "test", Password := "test" }
        (fun u p => u == "test" && p == "test") "test" 1800 1000).2 = none
    ∧ (1000 : Int) < (Authentication.Authenticate demoLib { Username := "test", Password := "test" }
        (fun u p => u == "test" && p == "test") "test" 1800 1000).1.Timestamp :=
  have h := authenticate_issues_signed_timestamp demoLib { Username := "test", Password := "test" }
    (fun u p => u == "test" && p == "test") "test" 1800 1000 (by decide) (by decide) (by decide)
  ⟨h.1, (h.2.2.1 (by decide) (by decide)).2⟩

/-- C6: `Authenticate` collects the missing-credential errors: `["No username provided"]` when
only the username is empty, `["No password provided"]` when only the password is empty, both
in that order when both are empty; the assertion is left as it was, and in all three cases the
result is the same for every verification predicate, which is not consulted. -/
theorem authenticate_collects_missing_credentials (L : Lib) (a : Authentication)
    (fn : String → String → Bool) (secret : String) (sessiontimeout now : Int) :
    (a.Username = "" → a.Password ≠ "" →
      a.Authenticate L fn secret sessiontimeout now = (a, some ["No username provided"]))
    ∧ (a.Username ≠ "" → a.Password = "" →
      a.Authenticate L fn secret sessiontimeout now = (a, some ["No password provided"]))
    ∧ (a.Username = "" → a.Password = "" →
      a.Authenticate L fn secret sessiontimeout now
        = (a, some ["No username provided", "No password provided"]))
    ∧ (a.Username = "" ∨ a.Password = "" → ∀ fn2 : String → String → Bool,
      a.Authenticate L fn2 secret sessiontimeout now
        = a.Authenticate L fn secret sessiontimeout now) := by
  refine ⟨?_, ?_, ?_, ?_⟩
  · intro hu hp
    have hp' : ¬ a.Password.length = 0 := fun h => hp ((string_length_eq_zero _).1 h)
    simp [Authentication.Authenticate, hu, hp']
  · intro hu hp
    have hu' : ¬ a.Username.length = 0 := fun h => hu ((string_length_eq_zero _).1 h)
    simp [Authentication.Authenticate, hu', hp]
  · intro hu hp
    simp [Authentication.Authenticate, hu, hp]
  · intro h fn2
    by_cases hu : a.Username.length = 0
    · by_cases hp : a.Password.length = 0 <;> simp [Authentication.Authenticate, hu, hp]
    · have hp : a.Password.length = 0 := by
        rcases h with h | h
        · exact absurd ((string_length_eq_zero _).2 h) hu
        · exact (string_length_eq_zero _).2 h
      simp [Authentication.Authenticate, hu, hp]

/-- C6 on the three shapes of missing credentials. -/
theorem authenticate_collects_missing_credentials_witness :
    Authentication.Authenticate demoLib { Username := "", Password := "p" }
        (fun _ _ => true) "s" 1800 1000
      = ({ Username := "", Password := "p" }, some ["No username provided"])
    ∧ Authentication.Authenticate demoLib { Username := "u", Password := "" }
        (fun _ _ => true) "s" 1800 1000
      = ({ Username := "u", Password := "" }, some ["No password provided"])
    ∧ Authentication.Authenticate demoLib { Username := "", Password := "" }
        (fun _ _ => true) "s" 1800 1000
      = ({ Username := "", Password := "" },
          some ["No username provided", "No password provided"]) :=
  ⟨(authenticate_collects_missing_credentials demoLib { Username := "", Password := "p" }
      (fun _ _ => true) "s" 1800 1000).1 (by decide) (by decide),
   (authenticate_collects_missing_credentials demoLib { Username := "u", Password := "" }
      (fun _ _ => true) "s" 1800 1000).2.1 (by decide) (by decide),
   (authenticate_collects_missing_credentials demoLib { Username := "", Password := "" }
      (fun _ _ => true) "s" 1800 1000).2.2.1 (by decide) (by decide)⟩

/-! ## `strconv`: parsing what was formatted -/

theorem digitVal_digitChar (d : Nat) (h : d < 10) : digitVal (digitChar d) = some d := by
  interval_cases d <;> rfl

theorem digitChar_ne_sign (d : Nat) (h : d < 10) : digitChar d ≠ '+' ∧ digitChar d ≠ '-' := by
  interval_cases d <;> decide

theorem parseDigits_append (l1 l2 : List Char) (acc : Nat) :
    parseDigits (l1 ++ l2) acc = (parseDigits l1 acc).bind (parseDigits l2) := by
  induction l1 generalizing acc with
  | nil => rfl
  | cons c cs ih =>
    simp only [List.cons_append, parseDigits]
    cases digitVal c with
    | none => rfl
    | some d => exact ih _

theorem parseDigits_digitsRev (fuel n : Nat) (h : n < fuel) :
    parseDigits ((digitsRev fuel n).reverse.map digitChar) 0 = some n := by
  induction fuel generalizing n with
  | zero => omega
  | succ fuel ih =>
    unfold digitsRev
    by_cases hn : n < 10
    · simp [hn, parseDigits, digitVal_digitChar n hn]
    · have hlt : n / 10 < fuel := by omega
      have hd : n % 10 < 10 := Nat.mod_lt _ (by decide)
      simp only [hn, if_false, List.reverse_cons, List.map_append, List.map_cons, List.map_nil]
      rw [parseDigits_append, ih _ hlt]
      simp only [Option.some_bind, parseDigits, digitVal_digitChar _ hd]
      congr 1
      omega

theorem digitsRev_ne_nil (fuel n : Nat) (h : n < fuel) : digitsRev fuel n ≠ [] := by
  cases fuel with
  | zero => omega
  | succ fuel =>
    unfold digitsRev
    split <;> simp

theorem digitsRev_lt (fuel n : Nat) : ∀ d ∈ digitsRev fuel n, d < 10 := by
  induction fuel generalizing n with
  | zero => intro d hd; simp [digitsRev] at hd
  | succ fuel ih =>
    intro d hd
    unfold digitsRev at hd
    split at hd
    · simp at hd; omega
    · simp only [List.mem_cons] at hd
      rcases hd with hd | hd
      · subst hd; exact Nat.mod_lt _ (by decide)
      · exact ih _ d hd

theorem formatNat_eq_cons (n : Nat) :
    ∃ c cs, formatNat n = c :: cs ∧ c ≠ '+' ∧ c ≠ '-' := by
  have hne : formatNat n ≠ [] := by
    unfold formatNat
    simp [digitsRev_ne_nil (n + 1) n (by omega)]
  cases hf : formatNat n with
  | nil => exact absurd hf hne
  | cons c cs =>
    refine ⟨c, cs, rfl, ?_⟩
    have hmem : c ∈ formatNat n := by rw [hf]; simp
    unfold formatNat at hmem
    simp only [List.mem_map, List.mem_reverse] at hmem
    obtain ⟨d, hd, hc⟩ := hmem
    rw [← hc]
    exact digitChar_ne_sign d (digitsRev_lt _ _ d hd)

theorem parseUnsigned_formatNat (n : Nat) : parseUnsigned (formatNat n) = some n := by
  obtain ⟨c, cs, hf, _, _⟩ := formatNat_eq_cons n
  have hp : parseDigits (formatNat n) 0 = some n := parseDigits_digitsRev (n + 1) n (by omega)
  rw [hf] at hp ⊢
  simpa [parseUnsigned] using hp

theorem ParseInt_unsigned (c : Char) (cs : List Char) (h1 : c ≠ '+') (h2 : c ≠ '-') :
    ParseInt (String.mk (c :: cs)) =
      match parseUnsigned (c :: cs) with
      | some n => if (n : Int) ≤ maxInt64 then some (n : Int) else none
      | none => none := by
  unfold ParseInt
  split
  · rename_i h; simp at h
  · rename_i h; simp at h; exact absurd h.1 h1
  · rename_i h; simp at h; exact absurd h.1 h2
  · rfl

theorem ParseInt_FormatInt (i : Int) (h : isInt64 i) : ParseInt (FormatInt i) = some i := by
  unfold isInt64 minInt64 maxInt64 at h
  unfold FormatInt
  by_cases hneg : i < 0
  · simp only [hneg, if_true]
    unfold ParseInt
    simp only [parseUnsigned_formatNat]
    have : -((i.natAbs : Nat) : Int) ≥ minInt64 := by unfold minInt64; omega
    simp only [this, if_true]
    congr 1
    omega
  · simp only [hneg, if_false]
    obtain ⟨c, cs, hf, h1, h2⟩ := formatNat_eq_cons i.natAbs
    have hp := parseUnsigned_formatNat i.natAbs
    rw [hf] at hp ⊢
    rw [ParseInt_unsigned c cs h1 h2, hp]
    have : ((i.natAbs : Nat) : Int) ≤ maxInt64 := by unfold maxInt64; omega
    simp only [this, if_true]
    congr 1
    omega

theorem FormatInt_ne_empty (i : Int) : FormatInt i ≠ "" := by
  unfold FormatInt
  obtain ⟨c, cs, hf, _, _⟩ := formatNat_eq_cons i.natAbs
  split
  · intro h; have := congrArg String.data h; simp at this
  · rw [hf]; intro h; have := congrArg String.data h; simp at this

/-! ## Verification: `CheckAuthorization` -/

theorem string_length_ne_zero {s : String} (h : s ≠ "") : ¬ s.length = 0 :=
  fun h0 => h ((string_length_eq_zero s).1 h0)

theorem Sign_CreateSignature (L : Lib) (a : Authentication) (secret message : String) :
    (a.CreateSignature L secret).Sign L message
      = Except.ok (computeHmac256 L message
          (computeHmac256 L (a.Username ++ "\n" ++ FormatInt a.Timestamp) secret)) := by
  have h := computeHmac256_ne_empty L (a.Username ++ "\n" ++ FormatInt a.Timestamp) secret
  simp [Authentication.Sign, Authentication.CreateSignature, string_length_ne_zero h]

theorem CheckAuthorization_past_guards (L : Lib) (a : Authentication) (r : Request)
    (secret : String) (sessiontimeout now : Int)
    (hA : a.Authorization ≠ "") (hU : a.Username ≠ "") (hT : a.Timestamp ≠ 0)
    (hE : ¬ wrapInt64 (a.Timestamp + sessiontimeout) < now) :
    a.CheckAuthorization L r secret sessiontimeout now =
      match bodyhash L r with
      | Except.error (err, r) => (a.CreateSignature L secret, r, some err)
      | Except.ok (bodyhash, r) =>
        if computeHmac256 L (r.Method ++ "\n" ++ r.Path ++ "\n" ++ bodyhash)
            (computeHmac256 L (a.Username ++ "\n" ++ FormatInt a.Timestamp) secret)
            ≠ a.Authorization then
          (a.CreateSignature L secret, r, some "Authorization does not match request")
        else (a.CreateSignature L secret, r, none) := by
  unfold Authentication.CheckAuthorization
  rw [if_neg (string_length_ne_zero hA), if_neg (string_length_ne_zero hU), if_neg hT, if_neg hE]
  cases hb : bodyhash L r with
  | error e => rfl
  | ok p =>
    obtain ⟨bh, r2⟩ := p
    simp only [Sign_CreateSignature]
    rfl

theorem bodyhash_ok_request (L : Lib) (r r2 : Request) (bh : String)
    (h : bodyhash L r = Except.ok (bh, r2)) : r2.Method = r.Method ∧ r2.Path = r.Path := by
  unfold bodyhash at h
  split at h
  · split at h
    · split at h
      · simp at h
      · simp only [Except.ok.injEq, Prod.mk.injEq] at h
        obtain ⟨_, h2⟩ := h
        subst h2
        exact ⟨rfl, rfl⟩
    · simp only [Except.ok.injEq, Prod.mk.injEq] at h
      obtain ⟨_, h2⟩ := h
      subst h2
      exact ⟨rfl, rfl⟩
  · simp only [Except.ok.injEq, Prod.mk.injEq] at h
    obtain ⟨_, h2⟩ := h
    subst h2
    exact ⟨rfl, rfl⟩

/-- C5: `CheckAuthorization` checks in a fixed order and stops at the first failure, leaving
the assertion and the request as they were: an empty `Authorization` gives "No Authorization
header provided" whatever the other fields are; otherwise an empty `Username` gives "No
Username header provided"; otherwise a zero `Timestamp` gives "No Timestamp header provided";
otherwise `Timestamp + sessiontimeout < now` (the `int64` sum of the code, which is the
mathematical sum when that is an `int64`) gives "Signature has expired"; and only when all
four pass is the signature computed: the assertion then carries `CreateSignature(secret)`,
while in the four failures it is the one passed in, whatever the secret. -/
theorem checkAuthorization_checks_in_order (L : Lib) (a : Authentication) (r : Request)
    (secret : String) (sessiontimeout now : Int) :
    (a.Authorization = "" →
      a.CheckAuthorization L r secret sessiontimeout now
        = (a, r, some "No Authorization header provided"))
    ∧ (a.Authorization ≠ "" → a.Username = "" →
      a.CheckAuthorization L r secret sessiontimeout now
        = (a, r, some "No Username header provided"))
    ∧ (a.Authorization ≠ "" → a.Username ≠ "" → a.Timestamp = 0 →
      a.CheckAuthorization L r secret sessiontimeout now
        = (a, r, some "No Timestamp header provided"))
    ∧ (a.Authorization ≠ "" → a.Username ≠ "" → a.Timestamp ≠ 0 →
        wrapInt64 (a.Timestamp + sessiontimeout) < now →
      a.CheckAuthorization L r secret sessiontimeout now
        = (a, r, some "Signature has expired"))
    ∧ (a.Authorization ≠ "" → a.Username ≠ "" → a.Timestamp ≠ 0 →
        isInt64 (a.Timestamp + sessiontimeout) → a.Timestamp + sessiontimeout < now →
      a.CheckAuthorization L r secret sessiontimeout now
        = (a, r, some "Signature has expired"))
    ∧ (a.Authorization ≠ "" → a.Username ≠ "" → a.Timestamp ≠ 0 →
        ¬ wrapInt64 (a.Timestamp + sessiontimeout) < now →
      (a.CheckAuthorization L r secret sessiontimeout now).1 = a.CreateSignature L secret) := by
  refine ⟨?_, ?_, ?_, ?_, ?_, ?_⟩
  · intro hA
    simp [Authentication.CheckAuthorization, hA]
  · intro hA hU
    simp [Authentication.CheckAuthorization, string_length_ne_zero hA, hU]
  · intro hA hU hT
    simp [Authentication.CheckAuthorization, string_length_ne_zero hA,
      string_length_ne_zero hU, hT]
  · intro hA hU hT hE
    simp [Authentication.CheckAuthorization, string_length_ne_zero hA,
      string_length_ne_zero hU, hT, hE]
  · intro hA hU hT hR hE
    have hE' : wrapInt64 (a.Timestamp + sessiontimeout) < now := by
      rw [wrapInt64_eq_self _ hR]; exact hE
    simp [Authentication.CheckAuthorization, string_length_ne_zero hA,
      string_length_ne_zero hU, hT, hE']
  · intro hA hU hT hE
    rw [CheckAuthorization_past_guards L a r secret sessiontimeout now hA hU hT hE]
    cases hb : bodyhash L r with
    | error e => rfl
    | ok p =>
      obtain ⟨bh, r2⟩ := p
      simp only
      split <;> rfl

/-- C5 on one assertion per check. -/
theorem checkAuthorization_checks_in_order_witness :
    Authentication.CheckAuthorization demoLib { Username := "test", Timestamp := 5 }
        { Method := "GET", Path := "/page" } "secret" 1800 1000
      = ({ Username := "test", Timestamp := 5 }, { Method := "GET", Path := "/page" },
          some "No Authorization header provided")
    ∧ Authentication.CheckAuthorization demoLib { Authorization := "x", Timestamp := 5 }
        { Method := "GET", Path := "/page" } "secret" 1800 1000
      = ({ Authorization := "x", Timestamp := 5 }, { Method := "GET", Path := "/page" },
          some "No Username header provided")
    ∧ Authentication.CheckAuthorization demoLib { Authorization := "x", Username := "test" }
        { Method := "GET", Path := "/page" } "secret" 1800 5000
      = ({ Authorization := "x", Username := "test" }, { Method := "GET", Path := "/page" },
          some "No Timestamp header provided")
    ∧ Authentication.CheckAuthorization demoLib
        { Authorization := "x", Username := "test", Timestamp := 5 }
        { Method := "GET", Path := "/page" } "secret" 1800 5000
      = ({ Authorization := "x", Username := "test", Timestamp := 5 },
          { Method := "GET", Path := "/page" }, some "Signature has expired") :=
  ⟨(checkAuthorization_checks_in_order demoLib { Username := "test", Timestamp := 5 }
      { Method := "GET", Path := "/page" } "secret" 1800 1000).1 (by decide),
   (checkAuthorization_checks_in_order demoLib { Authorization := "x", Timestamp := 5 }
      { Method := "GET", Path := "/page" } "secret" 1800 1000).2.1 (by decide) (by decide),
   (checkAuthorization_checks_in_order demoLib { Authorization := "x", Username := "test" }
      { Method := "GET", Path := "/page" } "secret" 1800 5000).2.2.1
      (by decide) (by decide) (by decide),
   (checkAuthorization_checks_in_order demoLib
      { Authorization := "x", Username := "test", Timestamp := 5 }
      { Method := "GET", Path := "/page" } "secret" 1800 5000).2.2.2.2.1
      (by decide) (by decide) (by decide) (by decide) (by decide)⟩

/-- C3 at its failing input: with a lifetime of 1800 seconds, a request whose `Timestamp` is
`now - 1`, already in the past, and whose signature is the right one, is not answered with
"Signature has expired": `CheckAuthorization` accepts it, because it compares
`Timestamp + sessiontimeout` with `now`. -/
theorem checkAuthorization_accepts_past_timestamp :
    Authentication.Authorization
        { Username := "test", Timestamp := 999,
          Authorization := "LApCBwcHBwcHBwcHBwcHBwcHBwcHBwcHBwcHBwcHBwc=" } ≠ ""
    ∧ (999 : Int) < 1000
    ∧ (Authentication.CheckAuthorization demoLib
        { Username := "test", Timestamp := 999,
          Authorization := "LApCBwcHBwcHBwcHBwcHBwcHBwcHBwcHBwcHBwcHBwc=" }
        { Method := "GET", Path := "/page" } "secret" 1800 1000).2.2 = none := by
  decide

/-- C4, as the claim states it, fails: a request with non-empty `Authorization` and
`Username` and a fresh `Timestamp`, whose body cannot be read to its end, is answered with the
read error, which is neither success nor "Authorization does not match request". -/
theorem checkAuthorization_body_read_error :
    (Authentication.CheckAuthorization demoLib
        { Username := "test", Timestamp := 2000, Authorization := "x" }
        { Method := "POST", Path := "/page/A",
          Body := some { data := [1, 2], err := some "unexpected EOF" }, ContentLength := 3 }
        "secret" 1800 1000).2.2 = some "unexpected EOF"
    ∧ (Authentication.CheckAuthorization demoLib
        { Username := "test", Timestamp := 2000, Authorization := "x" }
        { Method := "POST", Path := "/page/A",
          Body := some { data := [1, 2], err := some "unexpected EOF" }, ContentLength := 3 }
        "secret" 1800 1000).2.2 ≠ some "Authorization does not match request" := by
  decide

/-- C4, amended: for every request whose `Authorization` and `Username` fields are non-empty,
whose `Timestamp` is non-zero and passes the expiry check of the code, and whose body read
succeeds with the hash `hash`, `CheckAuthorization` returns success if and only if the
presented request signature equals `computeHmac256(method + "\n" + path + "\n" + hash,
computeHmac256(username + "\n" + decimal(timestamp), secret))`, and any failure is
"Authorization does not match request": the key of the request signature is the recomputed
session signature, not the server secret. -/
theorem checkAuthorization_accepts_iff_signature_matches (L : Lib) (a : Authentication)
    (r r2 : Request) (secret : String) (sessiontimeout now : Int) (hash : String)
    (hA : a.Authorization ≠ "") (hU : a.Username ≠ "") (hT : a.Timestamp ≠ 0)
    (hE : ¬ wrapInt64 (a.Timestamp + sessiontimeout) < now)
    (hB : bodyhash L r = Except.ok (hash, r2)) :
    ((a.CheckAuthorization L r secret sessiontimeout now).2.2 = none ↔
      a.Authorization = computeHmac256 L (r.Method ++ "\n" ++ r.Path ++ "\n" ++ hash)
        (computeHmac256 L (a.Username ++ "\n" ++ FormatInt a.Timestamp) secret))
    ∧ ((a.CheckAuthorization L r secret sessiontimeout now).2.2 ≠ none →
      (a.CheckAuthorization L r secret sessiontimeout now).2.2
        = some "Authorization does not match request") := by
  rw [CheckAuthorization_past_guards L a r secret sessiontimeout now hA hU hT hE, hB]
  obtain ⟨hm, hp⟩ := bodyhash_ok_request L r r2 hash hB
  simp only [hm, hp]
  by_cases h : computeHmac256 L (r.Method ++ "\n" ++ r.Path ++ "\n" ++ hash)
            (computeHmac256 L (a.Username ++ "\n" ++ FormatInt a.Timestamp) secret)
            = a.Authorization
  · simp [h]
  · have h' : ¬ a.Authorization = computeHmac256 L (r.Method ++ "\n" ++ r.Path ++ "\n" ++ hash)
            (computeHmac256 L (a.Username ++ "\n" ++ FormatInt a.Timestamp) secret) :=
      fun e => h e.symm
    simp [h, h']

/-- The amended C4 on a `GET /page` signed under the session signature of `test`. -/
theorem checkAuthorization_accepts_iff_signature_matches_witness :
    (Authentication.CheckAuthorization demoLib
        { Username := "test", Timestamp := 2000,
          Authorization := "LApCBwcHBwcHBwcHBwcHBwcHBwcHBwcHBwcHBwcHBwc=" }
        { Method := "GET", Path := "/page" } "secret" 1800 1000).2.2 = none ↔
      Authentication.Authorization
        { Username := "test", Timestamp := 2000,
          Authorization := "LApCBwcHBwcHBwcHBwcHBwcHBwcHBwcHBwcHBwcHBwc=" }
        = computeHmac256 demoLib
            (Request.Method { Method := "GET", Path := "/page" } ++ "\n"
              ++ Request.Path { Method := "GET", Path := "/page" } ++ "\n" ++ "")
            (computeHmac256 demoLib
              (Authentication.Username
                  { Username := "test", Timestamp := 2000,
                    Authorization := "LApCBwcHBwcHBwcHBwcHBwcHBwcHBwcHBwcHBwcHBwc=" }
                ++ "\n" ++ FormatInt (Authentication.Timestamp
                  { Username := "test", Timestamp := 2000,
                    Authorization := "LApCBwcHBwcHBwcHBwcHBwcHBwcHBwcHBwcHBwcHBwc=" }))
              "secret") :=
  (checkAuthorization_accepts_iff_signature_matches demoLib
    { Username := "test", Timestamp := 2000,
      Authorization := "LApCBwcHBwcHBwcHBwcHBwcHBwcHBwcHBwcHBwcHBwc=" }
    { Method := "GET", Path := "/page" } { Method := "GET", Path := "/page" }
    "secret" 1800 1000 "" (by decide) (by decide) (by decide) (by decide) rfl).1

/-! ## The round trip: what the client signs, the server accepts -/

theorem lookup_filter_ne (h : Header) (key other : String) (hne : other ≠ key) :
    List.lookup other (h.filter (fun e => e.1 != key)) = List.lookup other h := by
  induction h with
  | nil => rfl
  | cons e h ih =>
    obtain ⟨k, v⟩ := e
    by_cases hk : k = key
    · subst hk
      have h1 : (other == k) = false := by simpa using hne
      simp [List.filter, List.lookup, h1, ih]
    · have h2 : (k != key) = true := by simpa using hk
      simp only [List.filter, h2, List.lookup]
      rw [ih]

theorem Header_Get_Set_same (h : Header) (key value : String) :
    (h.Set key value).Get key = value := by
  simp [Header.Get, Header.Set, List.lookup]

theorem Header_Get_Set_other (h : Header) (key other value : String) (hne : other ≠ key) :
    (h.Set key value).Get other = h.Get other := by
  have h1 : (other == key) = false := by simpa using hne
  simp only [Header.Get, Header.Set, List.lookup, h1]
  rw [lookup_filter_ne h key other hne]

theorem data_HMAC_append (s : String) :
    ("HMAC " ++ s).data = 'H' :: 'M' :: 'A' :: 'C' :: ' ' :: s.data := by
  cases s; rfl

theorem validAuthorization_HMAC (s : String) : validAuthorization ("HMAC " ++ s) = true := by
  unfold validAuthorization
  rw [data_HMAC_append]
  have h : "HMAC ".data = ['H', 'M', 'A', 'C', ' '] := by decide
  rw [h]
  simp [List.isPrefixOf]

theorem drop_HMAC (s : String) : String.mk (("HMAC " ++ s).data.drop 5) = s := by
  rw [data_HMAC_append]
  cases s; rfl

theorem HMAC_append_ne_empty (s : String) : "HMAC " ++ s ≠ "" := by
  intro h
  have := congrArg String.data h
  rw [data_HMAC_append] at this
  simp at this

theorem Authenticate_none (L : Lib) (a : Authentication) (fn : String → String → Bool)
    (secret : String) (sessiontimeout now : Int)
    (h : (a.Authenticate L fn secret sessiontimeout now).2 = none) :
    a.Username ≠ "" ∧ a.Password ≠ "" ∧ fn a.Username a.Password = true := by
  by_cases hu : a.Username.length = 0
  · by_cases hp : a.Password.length = 0 <;> simp [Authentication.Authenticate, hu, hp] at h
  · by_cases hp : a.Password.length = 0
    · simp [Authentication.Authenticate, hu, hp] at h
    · by_cases hfn : fn a.Username a.Password = true
      · exact ⟨fun e => hu ((string_length_eq_zero _).2 e),
          fun e => hp ((string_length_eq_zero _).2 e), hfn⟩
      · simp [Authentication.Authenticate, hu, hp, hfn] at h

theorem LoadRequest_SignRequest (L : Lib) (r0 : Request) (method url : String)
    (body : List Nat) (c : Authentication) (hu : c.Username ≠ "") (ht : isInt64 c.Timestamp) :
    ({} : Authentication).LoadRequest L (SignRequest L r0 method url body c)
        AuthorizationMode.Signature
      = ({ Username := c.Username, Timestamp := c.Timestamp,
           Authorization := computeHmac256 L
             (method ++ "\n" ++ url ++ "\n" ++ (if body.length ≠ 0 then md5Hex L body else ""))
             c.Signature },
         SignRequest L r0 method url body c, none) := by
  have hT : (SignRequest L r0 method url body c).Header.Get "Timestamp"
      = FormatInt c.Timestamp := by
    simp only [SignRequest]
    rw [Header_Get_Set_other _ _ _ _ (by decide), Header_Get_Set_same]
  have hU : (SignRequest L r0 method url body c).Header.Get "Username" = c.Username := by
    simp only [SignRequest]
    rw [Header_Get_Set_other _ _ _ _ (by decide), Header_Get_Set_other _ _ _ _ (by decide),
      Header_Get_Set_same]
  have hA : (SignRequest L r0 method url body c).Header.Get "Authorization"
      = "HMAC " ++ computeHmac256 L
          (method ++ "\n" ++ url ++ "\n" ++ (if body.length ≠ 0 then md5Hex L body else ""))
          c.Signature := by
    simp only [SignRequest]
    rw [Header_Get_Set_same]
    rfl
  unfold Authentication.LoadRequest
  simp only [hT, hU, hA, ParseInt_FormatInt _ ht,
    string_length_ne_zero (FormatInt_ne_empty _), string_length_ne_zero hu,
    string_length_ne_zero (HMAC_append_ne_empty _), validAuthorization_HMAC, drop_HMAC,
    ne_eq, not_false_eq_true, if_true, and_self]

theorem bodyhash_SignRequest (L : Lib) (r0 : Request) (method url : String)
    (body : List Nat) (c : Authentication)
    (hbody : r0.Body = some (NewReader body))
    (hlen : r0.ContentLength = 0 ↔ body = []) :
    ∃ r2, bodyhash L (SignRequest L r0 method url body c)
        = Except.ok (if body.length ≠ 0 then md5Hex L body else "", r2)
      ∧ r2.Method = r0.Method ∧ r2.Path = r0.Path := by
  by_cases hb : body = []
  · have hc : r0.ContentLength = 0 := hlen.2 hb
    refine ⟨SignRequest L r0 method url body c, ?_, rfl, rfl⟩
    simp [bodyhash, SignRequest, hb, hc]
  · have hc : ¬ r0.ContentLength = 0 := fun h => hb (hlen.1 h)
    have hl : ¬ body.length = 0 := fun h => hb (List.length_eq_zero.1 h)
    refine ⟨{ SignRequest L r0 method url body c with Body := some (NewReader body) },
      ?_, rfl, rfl⟩
    simp [bodyhash, SignRequest, hbody, hc, hl, hb, ReadAll, NewReader]

/-- C2, as the claim states it, fails: an assertion issued under a negative session lifetime
is expired at the instant it is issued; one issued at `now = 0` under a lifetime of zero has
the timestamp zero, which reads as a missing header; under a lifetime of `2^62` seconds the
sum of the expiry check wraps around, so that assertion is expired too; and a request with an
empty body whose `ContentLength` is `-1`, signed the way `SignRequest` signs it, is refused
for its signature (the body hash of C11). -/
theorem issued_assertion_rejected :
    Authentication.Authenticate demoLib { Username := "test", Password := "test" }
        (fun u p => u == "test" && p == "test") "secret" (-1) 1000
      = ({ Username := "test", Password := "test", Timestamp := 999,
           Signature := "BghzBwcHBwcHBwcHBwcHBwcHBwcHBwcHBwcHBwcHBwc=" }, none)
    ∧ (Authentication.CheckAuthorization demoLib
        (Authentication.LoadRequest demoLib {}
          (SignRequest demoLib demoGetPage "GET" "/page" []
            { Username := "test", Timestamp := 999,
              Signature := "BghzBwcHBwcHBwcHBwcHBwcHBwcHBwcHBwcHBwcHBwc=" })
          AuthorizationMode.Signature).1
        (SignRequest demoLib demoGetPage "GET" "/page" []
          { Username := "test", Timestamp := 999,
            Signature := "BghzBwcHBwcHBwcHBwcHBwcHBwcHBwcHBwcHBwcHBwc=" })
        "secret" (-1) 1000).2.2 = some "Signature has expired"
    ∧ Authentication.Authenticate demoLib { Username := "test", Password := "test" }
        (fun u p => u == "test" && p == "test") "secret" 0 0
      = ({ Username := "test", Password := "test", Timestamp := 0,
           Signature := "BgZzBwcHBwcHBwcHBwcHBwcHBwcHBwcHBwcHBwcHBwc=" }, none)
    ∧ (Authentication.CheckAuthorization demoLib
        (Authentication.LoadRequest demoLib {}
          (SignRequest demoLib demoGetPage "GET" "/page" []
            { Username := "test", Timestamp := 0,
              Signature := "BgZzBwcHBwcHBwcHBwcHBwcHBwcHBwcHBwcHBwcHBwc=" })
          AuthorizationMode.Signature).1
        (SignRequest demoLib demoGetPage "GET" "/page" []
          { Username := "test", Timestamp := 0,
            Signature := "BgZzBwcHBwcHBwcHBwcHBwcHBwcHBwcHBwcHBwcHBwc=" })
        "secret" 0 0).2.2 = some "No Timestamp header provided"
    ∧ Authentication.Authenticate demoLib { Username := "test", Password := "test" }
        (fun u p => u == "test" && p == "test") "secret" 4611686018427387904 1000
      = ({ Username := "test", Password := "test", Timestamp := 4611686018427388904,
           Signature := "BhhzBwcHBwcHBwcHBwcHBwcHBwcHBwcHBwcHBwcHBwc=" }, none)
    ∧ (Authentication.CheckAuthorization demoLib
        (Authentication.LoadRequest demoLib {}
          (SignRequest demoLib demoGetPage "GET" "/page" []
            { Username := "test", Timestamp := 4611686018427388904,
              Signature := "BhhzBwcHBwcHBwcHBwcHBwcHBwcHBwcHBwcHBwcHBwc=" })
          AuthorizationMode.Signature).1
        (SignRequest demoLib demoGetPage "GET" "/page" []
          { Username := "test", Timestamp := 4611686018427388904,
            Signature := "BhhzBwcHBwcHBwcHBwcHBwcHBwcHBwcHBwcHBwcHBwc=" })
        "secret" 4611686018427387904 1000).2.2 = some "Signature has expired"
    ∧ Authentication.Authenticate demoLib { Username := "test", Password := "test" }
        (fun u p => u == "test" && p == "test") "secret" 1800 1000
      = ({ Username := "test", Password := "test", Timestamp := 2800,
           Signature := "BglzBwcHBwcHBwcHBwcHBwcHBwcHBwcHBwcHBwcHBwc=" }, none)
    ∧ (Authentication.CheckAuthorization demoLib
        (Authentication.LoadRequest demoLib {}
          (SignRequest demoLib { demoGetPage with ContentLength := -1 } "GET" "/page" []
            { Username := "test", Timestamp := 2800,
              Signature := "BglzBwcHBwcHBwcHBwcHBwcHBwcHBwcHBwcHBwcHBwc=" })
          AuthorizationMode.Signature).1
        (SignRequest demoLib { demoGetPage with ContentLength := -1 } "GET" "/page" []
          { Username := "test", Timestamp := 2800,
            Signature := "BglzBwcHBwcHBwcHBwcHBwcHBwcHBwcHBwcHBwcHBwc=" })
        "secret" 1800 1000).2.2 = some "Authorization does not match request" := by
  decide

/-- C2, amended: when the session lifetime is not negative, `now + 2 * sessiontimeout` does
not overflow `int64` and the issued timestamp `now + sessiontimeout` is not zero, then for
every assertion `issued` that a successful `Authenticate` produces, and every request whose
body reads as the bytes `body` and whose `ContentLength` is zero exactly when `body` is
empty, the request signed the way `SignRequest` signs it, over its own method and URL path
and over `body`, with the issued username, timestamp and session signature, passes
`LoadRequest(Signature)`, which reads the request signature
`computeHmac256(method + "\n" + path + "\n" + bodyhash, session signature)`, and passes
`CheckAuthorization` at the same instant with the same secret and lifetime; and
`WriteHeaders` then writes the issued `Username`, the decimal of the issued `Timestamp` and
the issued session signature as `Signature`. -/
theorem issued_assertion_authorizes (L : Lib) (a0 issued : Authentication)
    (fn : String → String → Bool) (secret : String) (sessiontimeout now : Int)
    (r0 : Request) (body : List Nat) (w : ResponseWriter)
    (hissue : a0.Authenticate L fn secret sessiontimeout now = (issued, none))
    (hst : 0 ≤ sessiontimeout) (hnow : isInt64 now)
    (hrange : now + sessiontimeout + sessiontimeout ≤ maxInt64)
    (hnz : now + sessiontimeout ≠ 0)
    (hbody : r0.Body = some (NewReader body))
    (hlen : r0.ContentLength = 0 ↔ body = []) :
    ∃ a1 a2 r2,
      ({} : Authentication).LoadRequest L
          (SignRequest L r0 r0.Method r0.Path body
            { Username := issued.Username, Timestamp := issued.Timestamp,
              Signature := issued.Signature })
          AuthorizationMode.Signature
        = (a1, SignRequest L r0 r0.Method r0.Path body
            { Username := issued.Username, Timestamp := issued.Timestamp,
              Signature := issued.Signature }, none)
      ∧ a1.Authorization = computeHmac256 L
          (r0.Method ++ "\n" ++ r0.Path ++ "\n" ++ (if body.length ≠ 0 then md5Hex L body else ""))
          issued.Signature
      ∧ a1.CheckAuthorization L
          (SignRequest L r0 r0.Method r0.Path body
            { Username := issued.Username, Timestamp := issued.Timestamp,
              Signature := issued.Signature })
          secret sessiontimeout now = (a2, r2, none)
      ∧ (a2.WriteHeaders w).1.header.Get "Username" = issued.Username
      ∧ (a2.WriteHeaders w).1.header.Get "Timestamp" = FormatInt issued.Timestamp
      ∧ (a2.WriteHeaders w).1.header.Get "Signature" = issued.Signature := by
  have hnone : (a0.Authenticate L fn secret sessiontimeout now).2 = none := by rw [hissue]
  obtain ⟨hu, hp, hfn⟩ := Authenticate_none L a0 fn secret sessiontimeout now hnone
  rw [Authenticate_accepts L a0 fn secret sessiontimeout now hu hp hfn] at hissue
  have hI : issued = ({ a0 with Timestamp := wrapInt64 (now + sessiontimeout) } :
      Authentication).CreateSignature L secret := (congrArg Prod.fst hissue).symm
  have hr1 : isInt64 (now + sessiontimeout) := by
    unfold isInt64 minInt64 maxInt64 at *
    omega
  have hw1 : wrapInt64 (now + sessiontimeout) = now + sessiontimeout := wrapInt64_eq_self _ hr1
  have hTs : issued.Timestamp = now + sessiontimeout := by
    rw [hI]; simp [Authentication.CreateSignature, hw1]
  have hUs : issued.Username = a0.Username := by
    rw [hI]; simp [Authentication.CreateSignature]
  have hSig : issued.Signature
      = computeHmac256 L (issued.Username ++ "\n" ++ FormatInt issued.Timestamp) secret := by
    rw [hUs, hTs, hI]; simp [Authentication.CreateSignature, hw1]
  have hu' : issued.Username ≠ "" := by rw [hUs]; exact hu
  have hload := LoadRequest_SignRequest L r0 r0.Method r0.Path body
    { Username := issued.Username, Timestamp := issued.Timestamp,
      Signature := issued.Signature } hu' (by rw [hTs]; exact hr1)
  obtain ⟨r2, hb, hm, hpth⟩ := bodyhash_SignRequest L r0 r0.Method r0.Path body
    { Username := issued.Username, Timestamp := issued.Timestamp,
      Signature := issued.Signature } hbody hlen
  have hA : computeHmac256 L
      (r0.Method ++ "\n" ++ r0.Path ++ "\n" ++ (if body.length ≠ 0 then md5Hex L body else ""))
      issued.Signature ≠ "" := computeHmac256_ne_empty _ _ _
  have hE : ¬ wrapInt64 (issued.Timestamp + sessiontimeout) < now := by
    rw [hTs]
    have hr2 : isInt64 (now + sessiontimeout + sessiontimeout) := by
      unfold isInt64 minInt64 maxInt64 at *
      omega
    rw [wrapInt64_eq_self _ hr2]
    omega
  have hcheck := CheckAuthorization_past_guards L
    { Username := issued.Username, Timestamp := issued.Timestamp,
      Authorization := computeHmac256 L
        (r0.Method ++ "\n" ++ r0.Path ++ "\n" ++ (if body.length ≠ 0 then md5Hex L body else ""))
        issued.Signature }
    (SignRequest L r0 r0.Method r0.Path body
      { Username := issued.Username, Timestamp := issued.Timestamp,
        Signature := issued.Signature })
    secret sessiontimeout now hA hu' (by rw [hTs]; exact hnz) hE
  rw [hb] at hcheck
  simp only [hm, hpth, ← hSig, ne_eq, not_true_eq_false, if_false] at hcheck
  refine ⟨_, _, _, hload, rfl, hcheck, ?_, ?_, ?_⟩
  · simp only [Authentication.WriteHeaders, ResponseWriter.SetHeader,
      Authentication.CreateSignature]
    rw [Header_Get_Set_other _ _ _ _ (by decide), Header_Get_Set_other _ _ _ _ (by decide),
      Header_Get_Set_same]
  · simp only [Authentication.WriteHeaders, ResponseWriter.SetHeader,
      Authentication.CreateSignature]
    rw [Header_Get_Set_other _ _ _ _ (by decide), Header_Get_Set_same]
  · simp only [Authentication.WriteHeaders, ResponseWriter.SetHeader,
      Authentication.CreateSignature]
    rw [Header_Get_Set_same]
    exact hSig.symm

/-- The amended C2 on the credentials of the tests and `GET /page` without a body. -/
theorem issued_assertion_authorizes_witness :
    ∃ a1 a2 r2,
      ({} : Authentication).LoadRequest demoLib
          (SignRequest demoLib demoGetPage "GET" "/page" []
            { Username := "test", Timestamp := 2800,
              Signature := "BglzBwcHBwcHBwcHBwcHBwcHBwcHBwcHBwcHBwcHBwc=" })
          AuthorizationMode.Signature
        = (a1, SignRequest demoLib demoGetPage "GET" "/page" []
            { Username := "test", Timestamp := 2800,
              Signature := "BglzBwcHBwcHBwcHBwcHBwcHBwcHBwcHBwcHBwcHBwc=" }, none)
      ∧ a1.Authorization = computeHmac256 demoLib
          ("GET" ++ "\n" ++ "/page" ++ "\n"
            ++ (if ([] : List Nat).length ≠ 0 then md5Hex demoLib [] else ""))
          "BglzBwcHBwcHBwcHBwcHBwcHBwcHBwcHBwcHBwcHBwc="
      ∧ a1.CheckAuthorization demoLib
          (SignRequest demoLib demoGetPage "GET" "/page" []
            { Username := "test", Timestamp := 2800,
              Signature := "BglzBwcHBwcHBwcHBwcHBwcHBwcHBwcHBwcHBwcHBwc=" })
          "secret" 1800 1000 = (a2, r2, none)
      ∧ (a2.WriteHeaders NewRecorder).1.header.Get "Username" = "test"
      ∧ (a2.WriteHeaders NewRecorder).1.header.Get "Timestamp" = FormatInt 2800
      ∧ (a2.WriteHeaders NewRecorder).1.header.Get "Signature"
          = "BglzBwcHBwcHBwcHBwcHBwcHBwcHBwcHBwcHBwcHBwc=" :=
  issued_assertion_authorizes demoLib { Username := "test", Password := "test" }
    { Username := "test", Password := "test", Timestamp := 2800,
      Signature := "BglzBwcHBwcHBwcHBwcHBwcHBwcHBwcHBwcHBwcHBwc=" }
    (fun u p => u == "test" && p == "test") "secret" 1800 1000 demoGetPage [] NewRecorder
    (by decide) (by decide) (by decide) (by decide) (by decide) (by decide) (by decide)

/-! ## The session-signing handler -/

theorem ReturnError_status (L : Lib) (w : ResponseWriter) (status : Nat) (e : List String)
    (hw : w.status = none) : (ReturnError L w status e).status = some status := by
  simp [ReturnError, ResponseWriter.Write, ResponseWriter.WriteHeader,
    ResponseWriter.SetHeader, hw]

theorem ReturnError_body (L : Lib) (w : ResponseWriter) (status : Nat) (e : List String) :
    (ReturnError L w status e).body = w.body ++ L.jsonEncode (ErrorResponse.toJson e) := by
  unfold ReturnError ResponseWriter.Write ResponseWriter.WriteHeader ResponseWriter.SetHeader
  cases w.status <;> rfl

theorem SessionSigningHandler_rejected (L : Lib) (secret : String) (sessiontimeout : Int)
    (allowOrigins : String) (fn : String → String → Bool) (now : Int)
    (w : ResponseWriter) (r r2 : Request) (a a2 : Authentication) (errs : List String)
    (hm : r.Method ≠ "OPTIONS")
    (hload : ({} : Authentication).LoadRequest L r AuthorizationMode.Authorization
      = (a, r2, none))
    (hauth : a.Authenticate L fn secret sessiontimeout now = (a2, some errs)) :
    CreateSessionSigningHandler L secret sessiontimeout allowOrigins fn now w r
      = (ReturnError L
          (((w.SetHeader "Access-Control-Allow-Methods" "GET, OPTIONS, POST").SetHeader
            "Access-Control-Allow-Origin" allowOrigins).SetHeader
            "Access-Control-Allow-Headers" allowHeaders) 403 errs, r2) := by
  simp only [CreateSessionSigningHandler, hm, if_false, hload, hauth]

theorem SessionSigningHandler_issued (L : Lib) (secret : String) (sessiontimeout : Int)
    (allowOrigins : String) (fn : String → String → Bool) (now : Int)
    (w : ResponseWriter) (r r2 : Request) (a a2 : Authentication)
    (hm : r.Method ≠ "OPTIONS")
    (hload : ({} : Authentication).LoadRequest L r AuthorizationMode.Authorization
      = (a, r2, none))
    (hauth : a.Authenticate L fn secret sessiontimeout now = (a2, none)) :
    CreateSessionSigningHandler L secret sessiontimeout allowOrigins fn now w r
      = ((({ a2 with Password := "" } : Authentication).WriteJSON L
          (((w.SetHeader "Access-Control-Allow-Methods" "GET, OPTIONS, POST").SetHeader
            "Access-Control-Allow-Origin" allowOrigins).SetHeader
            "Access-Control-Allow-Headers" allowHeaders)).1, r2) := by
  simp only [CreateSessionSigningHandler, hm, if_false, hload, hauth]
  rfl

theorem toJson_sent (a : Authentication) (hp : a.Password = "") (hs : a.Signature ≠ "") :
    a.toJson = Json.obj [("username", Json.str a.Username),
      ("timestamp", Json.num (FormatInt a.Timestamp)), ("signature", Json.str a.Signature)] := by
  simp [Authentication.toJson, hp, string_length_ne_zero hs]

/-- C7: for every non-empty username and password that the verification predicate rejects,
`Authenticate` returns exactly one error, "Invalid username or password", and leaves the
assertion alone; and the session-signing handler, on any request other than the `OPTIONS`
preflight from which `LoadRequest` reads these credentials, answers with status 403 and a body
that is the JSON object whose `errors` array holds that one message. -/
theorem invalid_credentials_forbidden (L : Lib) (a : Authentication)
    (fn : String → String → Bool) (secret : String) (sessiontimeout : Int)
    (allowOrigins : String) (now : Int)
    (hu : a.Username ≠ "") (hp : a.Password ≠ "") (hfn : fn a.Username a.Password = false) :
    a.Authenticate L fn secret sessiontimeout now = (a, some ["Invalid username or password"])
    ∧ ∀ (w : ResponseWriter) (r r2 : Request), r.Method ≠ "OPTIONS" → w.status = none →
        ({} : Authentication).LoadRequest L r AuthorizationMode.Authorization = (a, r2, none) →
        (CreateSessionSigningHandler L secret sessiontimeout allowOrigins fn now w r).1.status
            = some 403
        ∧ (CreateSessionSigningHandler L secret sessiontimeout allowOrigins fn now w r).1.body
            = w.body ++ L.jsonEncode (Json.obj
                [("errors", Json.arr [Json.str "Invalid username or password"])]) := by
  have hrej := Authenticate_rejects L a fn secret sessiontimeout now hu hp hfn
  refine ⟨hrej, ?_⟩
  intro w r r2 hm hw hload
  rw [SessionSigningHandler_rejected L secret sessiontimeout allowOrigins fn now w r r2 a a _
    hm hload hrej]
  constructor
  · exact ReturnError_status L _ 403 _ (by simpa [ResponseWriter.SetHeader] using hw)
  · rw [ReturnError_body]
    rfl

/-- C7 on the JSON body with username `test` and password `wrong`, against the predicate
that accepts `test` and `test` only. -/
theorem invalid_credentials_forbidden_witness :
    (CreateSessionSigningHandler demoLib "secret" 1800 "*" (verifyAdmin "test" "test") 1000
        NewRecorder (demoPost demoWrongBody)).1.status = some 403
    ∧ (CreateSessionSigningHandler demoLib "secret" 1800 "*" (verifyAdmin "test" "test") 1000
        NewRecorder (demoPost demoWrongBody)).1.body
      = NewRecorder.body ++ demoLib.jsonEncode (Json.obj
          [("errors", Json.arr [Json.str "Invalid username or password"])]) :=
  (invalid_credentials_forbidden demoLib { Username := "test", Password := "wrong" }
    (verifyAdmin "test" "test") "secret" 1800 "*" 1000
    (by decide) (by decide) (by decide)).2
    NewRecorder (demoPost demoWrongBody) (demoPost demoWrongBody)
    (by decide) (by decide) (by decide)

/-- C8: on every successful issuance the assertion the handler serializes, `sent`, is the
issued one with `Password` emptied; the response is `WriteJSON` of it, and its body is the
JSON object with exactly the keys `username`, `timestamp` and `signature`, in that order and
with no `password`; so a second request with the same username and another accepted password,
at the same instant, gets the identical response. -/
theorem issued_response_omits_password (L : Lib) (a : Authentication)
    (fn : String → String → Bool) (secret : String) (sessiontimeout : Int)
    (allowOrigins : String) (now : Int) (w : ResponseWriter) (r r2 : Request)
    (hm : r.Method ≠ "OPTIONS")
    (hload : ({} : Authentication).LoadRequest L r AuthorizationMode.Authorization
      = (a, r2, none))
    (hauth : (a.Authenticate L fn secret sessiontimeout now).2 = none) :
    ∃ sent : Authentication,
      sent = { (a.Authenticate L fn secret sessiontimeout now).1 with Password := "" }
      ∧ CreateSessionSigningHandler L secret sessiontimeout allowOrigins fn now w r
          = ((sent.WriteJSON L
              (((w.SetHeader "Access-Control-Allow-Methods" "GET, OPTIONS, POST").SetHeader
                "Access-Control-Allow-Origin" allowOrigins).SetHeader
                "Access-Control-Allow-Headers" allowHeaders)).1, r2)
      ∧ sent.Password = ""
      ∧ sent.toJson = Json.obj [("username", Json.str a.Username),
          ("timestamp", Json.num (FormatInt (wrapInt64 (now + sessiontimeout)))),
          ("signature", Json.str (computeHmac256 L
            (a.Username ++ "\n" ++ FormatInt (wrapInt64 (now + sessiontimeout))) secret))]
      ∧ (CreateSessionSigningHandler L secret sessiontimeout allowOrigins fn now w r).1.body
          = w.body ++ L.jsonEncode sent.toJson
      ∧ ∀ (rB r2B : Request) (aB : Authentication), rB.Method ≠ "OPTIONS" →
          ({} : Authentication).LoadRequest L rB AuthorizationMode.Authorization
            = (aB, r2B, none) →
          aB.Username = a.Username →
          (aB.Authenticate L fn secret sessiontimeout now).2 = none →
          (CreateSessionSigningHandler L secret sessiontimeout allowOrigins fn now w rB).1
            = (CreateSessionSigningHandler L secret sessiontimeout allowOrigins fn now w r).1 := by
  obtain ⟨hu, hp, hfn⟩ := Authenticate_none L a fn secret sessiontimeout now hauth
  have hacc := Authenticate_accepts L a fn secret sessiontimeout now hu hp hfn
  have hh := SessionSigningHandler_issued L secret sessiontimeout allowOrigins fn now w r r2 a _
    hm hload hacc
  refine ⟨_, rfl, ?_, rfl, ?_, ?_, ?_⟩
  · rw [hacc]; exact hh
  · rw [hacc]
    rw [toJson_sent _ rfl (by
      simp only [Authentication.CreateSignature]
      exact computeHmac256_ne_empty _ _ _)]
    rfl
  · rw [hh, hacc]
    simp only [Authentication.WriteJSON, ResponseWriter.Write, ResponseWriter.SetHeader,
      ResponseWriter.WriteHeader]
  · intro rB r2B aB hmB hloadB hsame hauthB
    obtain ⟨huB, hpB, hfnB⟩ := Authenticate_none L aB fn secret sessiontimeout now hauthB
    have haccB := Authenticate_accepts L aB fn secret sessiontimeout now huB hpB hfnB
    rw [hh, SessionSigningHandler_issued L secret sessiontimeout allowOrigins fn now w rB r2B
      aB _ hmB hloadB haccB]
    simp only [Authentication.WriteJSON, Authentication.toJson, Authentication.CreateSignature,
      hsame]

/-- C8 on the basic-auth credentials of the tests. -/
theorem issued_response_omits_password_witness :
    ∃ sent : Authentication,
      sent.Password = ""
      ∧ sent.toJson = Json.obj [("username", Json.str "test"),
          ("timestamp", Json.num (FormatInt (wrapInt64 (1000 + 1800)))),
          ("signature", Json.str (computeHmac256 demoLib
            ("test" ++ "\n" ++ FormatInt (wrapInt64 (1000 + 1800))) "secret"))]
      ∧ (CreateSessionSigningHandler demoLib "secret" 1800 "*" (verifyAdmin "test" "test") 1000
          NewRecorder (demoBasicAuth "test:test")).1.body
          = NewRecorder.body ++ demoLib.jsonEncode sent.toJson :=
  match issued_response_omits_password demoLib { Username := "test", Password := "test" }
      (verifyAdmin "test" "test") "secret" 1800 "*" 1000 NewRecorder
      (demoBasicAuth "test:test") (demoBasicAuth "test:test")
      (by decide) (by decide) (by decide) with
  | ⟨sent, _, _, h3, h4, h5, _⟩ => ⟨sent, h3, h4, h5⟩

/-! ## The authorized-request handler -/

theorem Header_Get_of_not_Has (h : Header) (key : String) (hh : h.Has key = false) :
    h.Get key = "" := by
  unfold Header.Has at hh
  unfold Header.Get
  cases hl : List.lookup key h with
  | none => rfl
  | some vs =>
    cases vs with
    | nil => rfl
    | cons v vs => rw [hl] at hh; simp at hh

/-- C9: the handler `CreateAuthorizedRequestHandler` returns hands the request to the wrapped
handler exactly when the method is not `OPTIONS` and both `LoadRequest(Signature)` and
`CheckAuthorization` succeed, and then its result is the wrapped handler run on the response
after `WriteHeaders`; when extraction or verification fails the result is `ReturnError` with
status 403 and the one error, and on `OPTIONS` it is the response with the three CORS headers
set, the same body and status as before and every other header untouched; in these cases the
result is the same for every wrapped handler, which is not run. -/
theorem authorized_handler_gates_wrapped_handler (L : Lib) (secret : String)
    (sessiontimeout : Int) (allowOrigins methods : String) (fn : HandlerFunc) (now : Int)
    (w : ResponseWriter) (r : Request) :
    (r.Method = "OPTIONS" →
      CreateAuthorizedRequestHandler L secret sessiontimeout allowOrigins methods fn now w r
        = (withCORS w methods allowOrigins, r))
    ∧ (r.Method ≠ "OPTIONS" → ∀ (a : Authentication) (r1 : Request) (e : String),
      ({} : Authentication).LoadRequest L r AuthorizationMode.Signature = (a, r1, some e) →
      CreateAuthorizedRequestHandler L secret sessiontimeout allowOrigins methods fn now w r
        = (ReturnError L (withCORS w methods allowOrigins) 403 [e], r1))
    ∧ (r.Method ≠ "OPTIONS" → ∀ (a a2 : Authentication) (r1 r2 : Request) (e : String),
      ({} : Authentication).LoadRequest L r AuthorizationMode.Signature = (a, r1, none) →
      a.CheckAuthorization L r1 secret sessiontimeout now = (a2, r2, some e) →
      CreateAuthorizedRequestHandler L secret sessiontimeout allowOrigins methods fn now w r
        = (ReturnError L (withCORS w methods allowOrigins) 403 [e], r2))
    ∧ (r.Method ≠ "OPTIONS" → ∀ (a a2 : Authentication) (r1 r2 : Request),
      ({} : Authentication).LoadRequest L r AuthorizationMode.Signature = (a, r1, none) →
      a.CheckAuthorization L r1 secret sessiontimeout now = (a2, r2, none) →
      CreateAuthorizedRequestHandler L secret sessiontimeout allowOrigins methods fn now w r
        = fn (a2.WriteHeaders (withCORS w methods allowOrigins)).1 r2)
    ∧ ((r.Method = "OPTIONS"
        ∨ (({} : Authentication).LoadRequest L r AuthorizationMode.Signature).2.2 ≠ none
        ∨ ((({} : Authentication).LoadRequest L r AuthorizationMode.Signature).1.CheckAuthorization
            L (({} : Authentication).LoadRequest L r AuthorizationMode.Signature).2.1
            secret sessiontimeout now).2.2 ≠ none) →
      ∀ fn2 : HandlerFunc,
        CreateAuthorizedRequestHandler L secret sessiontimeout allowOrigins methods fn2 now w r
          = CreateAuthorizedRequestHandler L secret sessiontimeout allowOrigins methods fn now
              w r)
    ∧ (withCORS w methods allowOrigins).body = w.body
    ∧ (withCORS w methods allowOrigins).status = w.status
    ∧ (∀ key : String, key ≠ "Access-Control-Allow-Methods" →
        key ≠ "Access-Control-Allow-Origin" → key ≠ "Access-Control-Allow-Headers" →
        (withCORS w methods allowOrigins).header.Get key = w.header.Get key)
    ∧ (w.status = none → ∀ e : String,
        (ReturnError L (withCORS w methods allowOrigins) 403 [e]).status = some 403
        ∧ (ReturnError L (withCORS w methods allowOrigins) 403 [e]).body
            = w.body ++ L.jsonEncode (Json.obj [("errors", Json.arr [Json.str e])])) := by
  refine ⟨?_, ?_, ?_, ?_, ?_, rfl, rfl, ?_, ?_⟩
  · intro hm
    simp [CreateAuthorizedRequestHandler, hm, withCORS]
  · intro hm a r1 e hload
    simp only [CreateAuthorizedRequestHandler, hm, if_false, hload]
    rfl
  · intro hm a a2 r1 r2 e hload hcheck
    simp only [CreateAuthorizedRequestHandler, hm, if_false, hload, hcheck]
    rfl
  · intro hm a a2 r1 r2 hload hcheck
    simp only [CreateAuthorizedRequestHandler, hm, if_false, hload, hcheck]
    rfl
  · intro h fn2
    by_cases hm : r.Method = "OPTIONS"
    · simp [CreateAuthorizedRequestHandler, hm]
    · rcases hload : ({} : Authentication).LoadRequest L r AuthorizationMode.Signature
        with ⟨a, r1, oe⟩
      rw [hload] at h
      cases oe with
      | some e => simp only [CreateAuthorizedRequestHandler, hm, if_false, hload]
      | none =>
        rcases hcheck : a.CheckAuthorization L r1 secret sessiontimeout now with ⟨a2, r2, oe2⟩
        simp only [hcheck] at h
        cases oe2 with
        | some e => simp only [CreateAuthorizedRequestHandler, hm, if_false, hload, hcheck]
        | none => simp [hm] at h
  · intro key h1 h2 h3
    simp only [withCORS, ResponseWriter.SetHeader]
    rw [Header_Get_Set_other _ _ _ _ h3, Header_Get_Set_other _ _ _ _ h2,
      Header_Get_Set_other _ _ _ _ h1]
  · intro hw e
    constructor
    · exact ReturnError_status L _ 403 _ (by simpa [withCORS, ResponseWriter.SetHeader] using hw)
    · rw [ReturnError_body]
      rfl

/-- C9 on a preflight, on an unsigned `GET /page`, and on a signed one; the wrapped handler
writes one byte. -/
theorem authorized_handler_gates_wrapped_handler_witness :
    CreateAuthorizedRequestHandler demoLib "secret" 1800 "*" "GET, OPTIONS"
        (fun w r => (w.Write [1], r)) 1000 NewRecorder { Method := "OPTIONS", Path := "/page" }
      = (withCORS NewRecorder "GET, OPTIONS" "*", { Method := "OPTIONS", Path := "/page" })
    ∧ CreateAuthorizedRequestHandler demoLib "secret" 1800 "*" "GET, OPTIONS"
        (fun w r => (w.Write [1], r)) 1000 NewRecorder { Method := "GET", Path := "/page" }
      = (ReturnError demoLib (withCORS NewRecorder "GET, OPTIONS" "*") 403
          ["No Authorization header provided"], { Method := "GET", Path := "/page" })
    ∧ CreateAuthorizedRequestHandler demoLib "secret" 1800 "*" "GET, OPTIONS"
        (fun w r => (w.Write [1], r)) 1000 NewRecorder
        (SignRequest demoLib demoGetPage "GET" "/page" []
        { Username := "test", Timestamp := 2800,
          Signature := "BglzBwcHBwcHBwcHBwcHBwcHBwcHBwcHBwcHBwcHBwc=" })
      = (fun (w : ResponseWriter) (r : Request) => (w.Write [1], r))
          (Authentication.WriteHeaders
            { Username := "test", Timestamp := 2800,
              Signature := "BglzBwcHBwcHBwcHBwcHBwcHBwcHBwcHBwcHBwcHBwc=",
              Authorization := "LApCBwcHBwcHBwcHBwcHBwcHBwcHBwcHBwcHBwcHBwc=" }
            (withCORS NewRecorder "GET, OPTIONS" "*")).1
          (SignRequest demoLib demoGetPage "GET" "/page" []
        { Username := "test", Timestamp := 2800,
          Signature := "BglzBwcHBwcHBwcHBwcHBwcHBwcHBwcHBwcHBwcHBwc=" }) :=
  ⟨(authorized_handler_gates_wrapped_handler demoLib "secret" 1800 "*" "GET, OPTIONS"
      (fun w r => (w.Write [1], r)) 1000 NewRecorder
      { Method := "OPTIONS", Path := "/page" }).1 (by decide),
   (authorized_handler_gates_wrapped_handler demoLib "secret" 1800 "*" "GET, OPTIONS"
      (fun w r => (w.Write [1], r)) 1000 NewRecorder
      { Method := "GET", Path := "/page" }).2.2.1 (by decide) {} {}
      { Method := "GET", Path := "/page" } { Method := "GET", Path := "/page" }
      "No Authorization header provided" (by decide) (by decide),
   (authorized_handler_gates_wrapped_handler demoLib "secret" 1800 "*" "GET, OPTIONS"
      (fun w r => (w.Write [1], r)) 1000 NewRecorder
      (SignRequest demoLib demoGetPage "GET" "/page" []
        { Username := "test", Timestamp := 2800,
          Signature := "BglzBwcHBwcHBwcHBwcHBwcHBwcHBwcHBwcHBwcHBwc=" })).2.2.2.1 (by decide)
      { Username := "test", Timestamp := 2800,
        Authorization := "LApCBwcHBwcHBwcHBwcHBwcHBwcHBwcHBwcHBwcHBwc=" }
      { Username := "test", Timestamp := 2800,
        Signature := "BglzBwcHBwcHBwcHBwcHBwcHBwcHBwcHBwcHBwcHBwc=",
        Authorization := "LApCBwcHBwcHBwcHBwcHBwcHBwcHBwcHBwcHBwcHBwc=" }
      (SignRequest demoLib demoGetPage "GET" "/page" []
        { Username := "test", Timestamp := 2800,
          Signature := "BglzBwcHBwcHBwcHBwcHBwcHBwcHBwcHBwcHBwcHBwc=" })
      (SignRequest demoLib demoGetPage "GET" "/page" []
        { Username := "test", Timestamp := 2800,
          Signature := "BglzBwcHBwcHBwcHBwcHBwcHBwcHBwcHBwcHBwcHBwc=" })
      (by decide) (by decide)⟩

/-! ## Header extraction: `LoadRequest` in `Signature` mode -/

/-- C10, as the claim states it, fails: a request that carries a `Timestamp` header whose
value is empty, which is not parsable as a decimal `int64`, is loaded without error. -/
theorem loadRequest_accepts_empty_timestamp_header :
    Header.Has [("Timestamp", [""])] "Timestamp" = true
    ∧ ParseInt (Header.Get [("Timestamp", [""])] "Timestamp") = none
    ∧ (Authentication.LoadRequest demoLib {}
        { Method := "GET", Path := "/page", Header := [("Timestamp", [""])] }
        AuthorizationMode.Signature).2.2 = none := by
  decide

/-- C10, amended: `LoadRequest` in `Signature` mode, on the fresh assertion the handler
passes, fails if and only if the value of the `Timestamp` header is not empty and not
parsable as a decimal `int64`, with the error "Invalid Timestamp header" and the assertion
still empty; otherwise it succeeds with `Username` the `Username` header, `Timestamp` the
parsed value, and `Authorization` the `Authorization` header without its five-character
prefix when the header matches `^HMAC `. The request is returned as it was, and assertion and
error depend on its headers only. An absent header reads as the empty value, and an empty
`Timestamp`, like an `Authorization` that does not match, leaves its field zero or empty
without error. -/
theorem loadRequest_reads_signature_headers (L : Lib) (r : Request) :
    ({} : Authentication).LoadRequest L r AuthorizationMode.Signature
      = (if r.Header.Get "Timestamp" ≠ "" ∧ ParseInt (r.Header.Get "Timestamp") = none then
          ({}, r, some "Invalid Timestamp header")
        else
          ({ Username := r.Header.Get "Username",
             Timestamp := (ParseInt (r.Header.Get "Timestamp")).getD 0,
             Authorization :=
               if validAuthorization (r.Header.Get "Authorization") then
                 String.mk ((r.Header.Get "Authorization").data.drop 5)
               else "" }, r, none))
    ∧ (∀ (method path : String) (body : Option BodyReader) (contentLength : Int),
        (({} : Authentication).LoadRequest L
            { Method := method, Path := path, Header := r.Header, Body := body,
              ContentLength := contentLength } AuthorizationMode.Signature).1
          = (({} : Authentication).LoadRequest L r AuthorizationMode.Signature).1
        ∧ (({} : Authentication).LoadRequest L
            { Method := method, Path := path, Header := r.Header, Body := body,
              ContentLength := contentLength } AuthorizationMode.Signature).2.2
          = (({} : Authentication).LoadRequest L r AuthorizationMode.Signature).2.2)
    ∧ (∀ key : String, r.Header.Has key = false → r.Header.Get key = "")
    ∧ ParseInt "" = none ∧ validAuthorization "" = false := by
  have key : ∀ r : Request, ({} : Authentication).LoadRequest L r AuthorizationMode.Signature
      = (if r.Header.Get "Timestamp" ≠ "" ∧ ParseInt (r.Header.Get "Timestamp") = none then
          ({}, r, some "Invalid Timestamp header")
        else
          ({ Username := r.Header.Get "Username",
             Timestamp := (ParseInt (r.Header.Get "Timestamp")).getD 0,
             Authorization :=
               if validAuthorization (r.Header.Get "Authorization") then
                 String.mk ((r.Header.Get "Authorization").data.drop 5)
               else "" }, r, none)) := by
    intro r
    unfold Authentication.LoadRequest
    by_cases ht : r.Header.Get "Timestamp" = ""
    · have hu : ∀ s : String, (if s.length ≠ 0 then ({ Username := s } : Authentication)
          else ({} : Authentication)) = { Username := s } := by
        intro s
        by_cases hs : s = ""
        · subst hs; rfl
        · simp [string_length_ne_zero hs]
      by_cases hv : validAuthorization (r.Header.Get "Authorization") = true
      · have hne : r.Header.Get "Authorization" ≠ "" := by
          intro h0; rw [h0] at hv; exact absurd hv (by decide)
        simp [ht, hv, string_length_ne_zero hne, ParseInt]
        by_cases hs : r.Header.Get "Username" = ""
        · simp [hs]
        · simp [string_length_ne_zero hs]
      · simp [ht, hv, ParseInt]
        by_cases hs : r.Header.Get "Username" = ""
        · simp [hs]
        · simp [string_length_ne_zero hs]
    · cases hp : ParseInt (r.Header.Get "Timestamp") with
      | none => simp [ht, string_length_ne_zero ht, hp]
      | some t =>
        by_cases hv : validAuthorization (r.Header.Get "Authorization") = true
        · have hne : r.Header.Get "Authorization" ≠ "" := by
            intro h0; rw [h0] at hv; exact absurd hv (by decide)
          simp [ht, hv, string_length_ne_zero hne, string_length_ne_zero ht, hp]
          by_cases hs : r.Header.Get "Username" = ""
          · simp [hs]
          · simp [string_length_ne_zero hs]
        · simp [ht, hv, string_length_ne_zero ht, hp]
          by_cases hs : r.Header.Get "Username" = ""
          · simp [hs]
          · simp [string_length_ne_zero hs]
  refine ⟨key r, ?_, ?_, by decide, by decide⟩
  · intro method path body contentLength
    rw [key, key r]
    simp only
    split <;> simp
  · intro k hk
    exact Header_Get_of_not_Has _ _ hk

/-- The amended C10 on a request with an unparsable `Timestamp` and no `Username`. -/
theorem loadRequest_reads_signature_headers_witness :
    Authentication.LoadRequest demoLib {}
        { Method := "GET", Path := "/page", Header := [("Timestamp", ["soon"])] }
        AuthorizationMode.Signature
      = ({}, { Method := "GET", Path := "/page", Header := [("Timestamp", ["soon"])] },
          some "Invalid Timestamp header")
    ∧ Header.Get [("Timestamp", ["soon"])] "Username" = "" :=
  ⟨(loadRequest_reads_signature_headers demoLib
      { Method := "GET", Path := "/page", Header := [("Timestamp", ["soon"])] }).1.trans
      (if_pos (by decide)),
   (loadRequest_reads_signature_headers demoLib
      { Method := "GET", Path := "/page", Header := [("Timestamp", ["soon"])] }).2.2.1
      "Username" (by decide)⟩

/-! ## The request after `CheckAuthorization` -/

theorem bodyhash_keeps_request (L : Lib) (r : Request)
    (hread : ∀ b, r.Body = some b → b.err = none) :
    ∃ hash, bodyhash L r = Except.ok (hash, r) := by
  unfold bodyhash
  by_cases hc : r.ContentLength = 0
  · exact ⟨"", by simp [hc]⟩
  · cases hB : r.Body with
    | none => exact ⟨"", by simp [hc]⟩
    | some b =>
      have he := hread b hB
      refine ⟨md5Hex L b.data, ?_⟩
      obtain ⟨data, err⟩ := b
      simp only at he
      subst he
      obtain ⟨m, p, h, body, cl⟩ := r
      simp only at hB
      subst hB
      simp [hc, ReadAll, NewReader]

theorem CheckAuthorization_request (L : Lib) (a : Authentication) (r : Request)
    (secret : String) (sessiontimeout now : Int) :
    (a.CheckAuthorization L r secret sessiontimeout now).2.1 = r
    ∨ (∃ hash, bodyhash L r
        = Except.ok (hash, (a.CheckAuthorization L r secret sessiontimeout now).2.1))
    ∨ (∃ e, bodyhash L r
        = Except.error (e, (a.CheckAuthorization L r secret sessiontimeout now).2.1)) := by
  by_cases hA : a.Authorization = ""
  · left; simp [Authentication.CheckAuthorization, hA]
  · by_cases hU : a.Username = ""
    · left; simp [Authentication.CheckAuthorization, string_length_ne_zero hA, hU]
    · by_cases hT : a.Timestamp = 0
      · left
        simp [Authentication.CheckAuthorization, string_length_ne_zero hA,
          string_length_ne_zero hU, hT]
      · by_cases hE : wrapInt64 (a.Timestamp + sessiontimeout) < now
        · left
          simp [Authentication.CheckAuthorization, string_length_ne_zero hA,
            string_length_ne_zero hU, hT, hE]
        · right
          rw [CheckAuthorization_past_guards L a r secret sessiontimeout now hA hU hT hE]
          cases hb : bodyhash L r with
          | error p =>
            obtain ⟨e, r2⟩ := p
            right
            exact ⟨e, rfl⟩
          | ok p =>
            obtain ⟨hash, r2⟩ := p
            left
            refine ⟨hash, ?_⟩
            simp only
            split <;> rfl

/-- C12: `CheckAuthorization` reads the body without destroying it: for every request whose
body reads to its end without error, and every assertion, accepted or rejected, the bytes
readable from the body after the call are the bytes that were readable before it, and method,
path and headers are unchanged; in the model the request after the call is the request
before it. -/
theorem checkAuthorization_leaves_request_readable (L : Lib) (a : Authentication) (r : Request)
    (secret : String) (sessiontimeout now : Int)
    (hread : ∀ b, r.Body = some b → b.err = none) :
    (a.CheckAuthorization L r secret sessiontimeout now).2.1.Body.map BodyReader.data
        = r.Body.map BodyReader.data
    ∧ (a.CheckAuthorization L r secret sessiontimeout now).2.1.Method = r.Method
    ∧ (a.CheckAuthorization L r secret sessiontimeout now).2.1.Path = r.Path
    ∧ (a.CheckAuthorization L r secret sessiontimeout now).2.1.Header = r.Header
    ∧ (a.CheckAuthorization L r secret sessiontimeout now).2.1 = r := by
  have hreq : (a.CheckAuthorization L r secret sessiontimeout now).2.1 = r := by
    obtain ⟨h0, hk⟩ := bodyhash_keeps_request L r hread
    rcases CheckAuthorization_request L a r secret sessiontimeout now with h | ⟨hash, h⟩ | ⟨e, h⟩
    · exact h
    · rw [hk] at h
      simp only [Except.ok.injEq, Prod.mk.injEq] at h
      exact h.2.symm
    · rw [hk] at h
      simp at h
  rw [hreq]
  exact ⟨rfl, rfl, rfl, rfl, rfl⟩

/-- C12 on a `POST` with a body of three bytes, rejected for its signature. -/
theorem checkAuthorization_leaves_request_readable_witness :
    (Authentication.CheckAuthorization demoLib
        { Username := "test", Timestamp := 2000, Authorization := "x" }
        { Method := "POST", Path := "/page/A", Body := some { data := [104, 105, 33] },
          ContentLength := 3 } "secret" 1800 1000).2.1.Body.map BodyReader.data
      = Option.map BodyReader.data (some { data := [104, 105, 33] }) :=
  (checkAuthorization_leaves_request_readable demoLib
    { Username := "test", Timestamp := 2000, Authorization := "x" }
    { Method := "POST", Path := "/page/A", Body := some { data := [104, 105, 33] },
      ContentLength := 3 } "secret" 1800 1000 (by decide)).1

/-! ## What a JSON credential body can and cannot set -/

theorem setField_Authorization (L : Lib) (a : Authentication) (key : String) (v : Json) :
    (a.setField L key v).1.Authorization = a.Authorization := by
  unfold Authentication.setField
  split
  · split <;> rfl
  · split
    · split <;> rfl
    · split
      · split
        · rfl
        · split <;> rfl
        · rfl
      · split
        · split <;> rfl
        · rfl

theorem setFields_Authorization (L : Lib) (fields : List (String × Json)) :
    ∀ (a : Authentication) (saved : Option String),
      (Authentication.setFields L a fields saved).1.Authorization = a.Authorization := by
  induction fields with
  | nil => intro a saved; rfl
  | cons f fields ih =>
    intro a saved
    obtain ⟨key, v⟩ := f
    simp only [Authentication.setFields]
    rw [ih, setField_Authorization]

theorem Unmarshal_Authorization (L : Lib) (a : Authentication) (body : List Nat) :
    (a.Unmarshal L body).1.Authorization = a.Authorization := by
  unfold Authentication.Unmarshal
  split
  · rfl
  · rfl
  · exact setFields_Authorization L _ a none
  · rfl

theorem LoadRequest_Authorization_kept (L : Lib) (a : Authentication) (r : Request) :
    (a.LoadRequest L r AuthorizationMode.Authorization).1.Authorization = a.Authorization := by
  unfold Authentication.LoadRequest
  simp only
  split
  · rfl
  · split
    · split
      · rfl
      · split
        · rfl
        · rename_i body _ _
          have hU := Unmarshal_Authorization L a body
          split
          · rename_i a2 err heq
            rw [heq] at hU
            exact hU
          · rename_i a2 heq
            rw [heq] at hU
            exact hU
    · rfl

theorem Authenticate_same_credentials (L : Lib) (a1 a2 : Authentication)
    (fn : String → String → Bool) (secret : String) (sessiontimeout now : Int)
    (hU : a1.Username = a2.Username) (hP : a1.Password = a2.Password) :
    (a1.Authenticate L fn secret sessiontimeout now).2
        = (a2.Authenticate L fn secret sessiontimeout now).2
    ∧ ((a1.Authenticate L fn secret sessiontimeout now).2 = none →
        (a1.Authenticate L fn secret sessiontimeout now).1.Username
            = (a2.Authenticate L fn secret sessiontimeout now).1.Username
        ∧ (a1.Authenticate L fn secret sessiontimeout now).1.Timestamp
            = (a2.Authenticate L fn secret sessiontimeout now).1.Timestamp
        ∧ (a1.Authenticate L fn secret sessiontimeout now).1.Signature
            = (a2.Authenticate L fn secret sessiontimeout now).1.Signature) := by
  by_cases hu : a2.Username.length = 0
  · by_cases hp : a2.Password.length = 0 <;>
      simp [Authentication.Authenticate, hU, hP, hu, hp]
  · by_cases hp : a2.Password.length = 0
    · simp [Authentication.Authenticate, hU, hP, hu, hp]
    · by_cases hfn : fn a2.Username a2.Password = true
      · simp [Authentication.Authenticate, Authentication.CreateSignature, hU, hP, hu, hp, hfn]
      · simp [Authentication.Authenticate, hU, hP, hu, hp, hfn]

/-- C13, as the claim states it, fails: of two JSON credential bodies with the same username
and password that differ in their `timestamp` and `signature` fields, the one whose
`signature` is a string is issued a session with status 200, and the one whose `signature` is
a number does not unmarshal and is answered with status 500. -/
theorem mistyped_client_signature_refused :
    (Authentication.LoadRequest demoLib {} (demoPost demoForgedBody)
        AuthorizationMode.Authorization).1
      = { Username := "test", Password := "test", Timestamp := 5, Signature := "forged" }
    ∧ (CreateSessionSigningHandler demoLib "secret" 1800 "*" (verifyAdmin "test" "test") 1000
        NewRecorder (demoPost demoForgedBody)).1.status = some 200
    ∧ (Authentication.LoadRequest demoLib {} (demoPost demoMistypedBody)
        AuthorizationMode.Authorization).2.2 = some "json: cannot unmarshal"
    ∧ (CreateSessionSigningHandler demoLib "secret" 1800 "*" (verifyAdmin "test" "test") 1000
        NewRecorder (demoPost demoMistypedBody)).1.status = some 500 := by
  decide

/-- C13, amended: the timestamp and the signature a client puts into a JSON credential body
that `LoadRequest` unmarshals without error do not influence issuance: for two assertions
with the same username and password, whatever their other fields, `Authenticate` at the same
instant with the same secret, lifetime and predicate returns the same errors and, on success,
the same issued `Timestamp` and `Signature`; two requests of the same method from which
`LoadRequest` in `Authorization` mode reads such assertions without error get the same
response from the session-signing handler; `json.Unmarshal` never changes the `Authorization`
field, which is empty after `LoadRequest` on the fresh assertion; and a request, other than
the preflight, on which `LoadRequest` fails is answered with `ReturnError` of status 500 and
that error, before any issuance. -/
theorem client_timestamp_and_signature_ignored (L : Lib) (a1 a2 : Authentication)
    (fn : String → String → Bool) (secret : String) (sessiontimeout : Int)
    (allowOrigins : String) (now : Int)
    (hU : a1.Username = a2.Username) (hP : a1.Password = a2.Password) :
    (a1.Authenticate L fn secret sessiontimeout now).2
        = (a2.Authenticate L fn secret sessiontimeout now).2
    ∧ ((a1.Authenticate L fn secret sessiontimeout now).2 = none →
        (a1.Authenticate L fn secret sessiontimeout now).1.Timestamp
            = (a2.Authenticate L fn secret sessiontimeout now).1.Timestamp
        ∧ (a1.Authenticate L fn secret sessiontimeout now).1.Signature
            = (a2.Authenticate L fn secret sessiontimeout now).1.Signature)
    ∧ (∀ (w : ResponseWriter) (r1 r2 r1' r2' : Request), r1.Method = r2.Method →
        ({} : Authentication).LoadRequest L r1 AuthorizationMode.Authorization
          = (a1, r1', none) →
        ({} : Authentication).LoadRequest L r2 AuthorizationMode.Authorization
          = (a2, r2', none) →
        (CreateSessionSigningHandler L secret sessiontimeout allowOrigins fn now w r1).1
          = (CreateSessionSigningHandler L secret sessiontimeout allowOrigins fn now w r2).1)
    ∧ (∀ (a : Authentication) (body : List Nat),
        (a.Unmarshal L body).1.Authorization = a.Authorization)
    ∧ (∀ r : Request,
        (({} : Authentication).LoadRequest L r
          AuthorizationMode.Authorization).1.Authorization = "")
    ∧ (∀ (w : ResponseWriter) (r r' : Request) (a : Authentication) (e : String),
        r.Method ≠ "OPTIONS" →
        ({} : Authentication).LoadRequest L r AuthorizationMode.Authorization
          = (a, r', some e) →
        CreateSessionSigningHandler L secret sessiontimeout allowOrigins fn now w r
          = (ReturnError L (withCORS w "GET, OPTIONS, POST" allowOrigins) 500 [e], r')) := by
  obtain ⟨hout, hsucc⟩ := Authenticate_same_credentials L a1 a2 fn secret sessiontimeout now hU hP
  refine ⟨hout, fun h => (hsucc h).2, ?_, Unmarshal_Authorization L, ?_, ?_⟩
  · intro w r1 r2 r1' r2' hm hl1 hl2
    by_cases ho : r2.Method = "OPTIONS"
    · have ho1 : r1.Method = "OPTIONS" := by rw [hm]; exact ho
      simp [CreateSessionSigningHandler, ho, ho1]
    · have ho1 : r1.Method ≠ "OPTIONS" := by rw [hm]; exact ho
      rcases h1 : a1.Authenticate L fn secret sessiontimeout now with ⟨b1, o1⟩
      rcases h2 : a2.Authenticate L fn secret sessiontimeout now with ⟨b2, o2⟩
      rw [h1, h2] at hout hsucc
      simp only at hout hsucc
      subst hout
      cases o1 with
      | some errs =>
        rw [SessionSigningHandler_rejected L secret sessiontimeout allowOrigins fn now w r1 r1'
            a1 b1 errs ho1 hl1 h1,
          SessionSigningHandler_rejected L secret sessiontimeout allowOrigins fn now w r2 r2'
            a2 b2 errs ho hl2 h2]
      | none =>
        obtain ⟨e1, e2, e3⟩ := hsucc rfl
        rw [SessionSigningHandler_issued L secret sessiontimeout allowOrigins fn now w r1 r1'
            a1 b1 ho1 hl1 h1,
          SessionSigningHandler_issued L secret sessiontimeout allowOrigins fn now w r2 r2'
            a2 b2 ho hl2 h2]
        simp only [Authentication.WriteJSON, Authentication.toJson, e1, e2, e3]
  · intro r
    exact LoadRequest_Authorization_kept L {} r
  · intro w r r' a e hm hload
    simp only [CreateSessionSigningHandler, hm, if_false, hload]
    rfl

/-- The amended C13 on a body that carries a timestamp and a signature and on one that does not. -/
theorem client_timestamp_and_signature_ignored_witness :
    (CreateSessionSigningHandler demoLib "secret" 1800 "*" (verifyAdmin "test" "test") 1000
        NewRecorder (demoPost demoForgedBody)).1
      = (CreateSessionSigningHandler demoLib "secret" 1800 "*" (verifyAdmin "test" "test") 1000
        NewRecorder (demoPost demoPlainBody)).1 :=
  (client_timestamp_and_signature_ignored demoLib
    { Username := "test", Password := "test", Timestamp := 5, Signature := "forged" }
    { Username := "test", Password := "test" }
    (verifyAdmin "test" "test") "secret" 1800 "*" 1000 (by decide) (by decide)).2.2.1
    NewRecorder (demoPost demoForgedBody) (demoPost demoPlainBody)
    (demoPost demoForgedBody) (demoPost demoPlainBody)
    (by decide) (by decide) (by decide)

/-! ## The body hash and the declared length -/

/-- C11 at its failing input: a request with an empty body whose `ContentLength` is `-1`, as
for a chunked transfer. `CheckAuthorization` hashes the empty body, so the third field of the
signed message is the hexadecimal digest of no bytes (32 digits, here of the stand-in digest)
and not the empty string; `SignRequest` signs the same empty body with an empty third field,
and the request it signed is rejected, while the same request with `ContentLength` 0 is
accepted. -/
theorem chunked_empty_body_is_hashed :
    bodyhash demoLib
        { Method := "GET", Path := "/page", Body := some (NewReader []), ContentLength := -1 }
      = Except.ok ("00000000000000000000000000000000",
          { Method := "GET", Path := "/page", Body := some (NewReader []), ContentLength := -1 })
    ∧ (SignRequest demoLib
        { Method := "GET", Path := "/page", Body := some (NewReader []), ContentLength := -1 }
        "GET" "/page" []
        { Username := "test", Timestamp := 2800,
          Signature := "BglzBwcHBwcHBwcHBwcHBwcHBwcHBwcHBwcHBwcHBwc=" }).Header.Get "Authorization"
      = "HMAC " ++ computeHmac256 demoLib ("GET" ++ "\n" ++ "/page" ++ "\n" ++ "")
          "BglzBwcHBwcHBwcHBwcHBwcHBwcHBwcHBwcHBwcHBwc="
    ∧ (Authentication.CheckAuthorization demoLib
        { Username := "test", Timestamp := 2800,
          Authorization := computeHmac256 demoLib ("GET" ++ "\n" ++ "/page" ++ "\n" ++ "")
            "BglzBwcHBwcHBwcHBwcHBwcHBwcHBwcHBwcHBwcHBwc=" }
        { Method := "GET", Path := "/page", Body := some (NewReader []), ContentLength := -1 }
        "secret" 1800 1000).2.2 = some "Authorization does not match request"
    ∧ (Authentication.CheckAuthorization demoLib
        { Username := "test", Timestamp := 2800,
          Authorization := computeHmac256 demoLib ("GET" ++ "\n" ++ "/page" ++ "\n" ++ "")
            "BglzBwcHBwcHBwcHBwcHBwcHBwcHBwcHBwcHBwcHBwc=" }
        { Method := "GET", Path := "/page", Body := some (NewReader []), ContentLength := 0 }
        "secret" 1800 1000).2.2 = none := by
  refine ⟨rfl, by decide, by decide, by decide⟩

end RestWiki
